import Mathlib

/-
Verification development for the gerkoBot support-relay server
(src/src/server.ts and src/src/getAutoReplies.ts).

The server keeps an in-memory map of chat sessions (activeChats) and a map
from agent telegram id to the chat the agent currently has open
(agentChatMap).  Handlers are embedded as pure functions from the server
state and the inbound event to the new state, a trace of external effects
(telegram sends, dashboard emits, database writes) and, for HTTP handlers,
the response.  Delivery outcomes of telegram sends are threaded as an
explicit boolean, because the source catches and logs every send failure.
-/

namespace Gerko

/-- The sender of a chat message; named from in the source (a Lean keyword). -/
inductive Sender
  | user
  | agent
  | bot
  | system
deriving DecidableEq, Repr

/-- Chat ownership mode: the bot auto-responder or a human agent. -/
inductive Mode
  | bot
  | human
deriving DecidableEq, Repr

/-- Which inbound adapter created the session. -/
inductive Source
  | web
  | telegram
deriving DecidableEq, Repr

/-- A chat message as stored in ChatState.messages (interface Message). -/
structure Message where
  sender : Sender
  text : String
  timestamp : Nat
  agentId : Option String := none
  agentName : Option String := none
deriving DecidableEq, Repr

/-- A chat session record (interface ChatState).  Optional TS fields are
Options; the optional boolean requestingHuman is modelled as a Bool whose
default false stands for the absent (undefined, falsy) field. -/
structure ChatState where
  mode : Mode
  agentId : Option String := none
  agentName : Option String := none
  messages : List Message
  source : Source
  requestingHuman : Bool := false
  userFirstName : Option String := none
  userLastName : Option String := none
  userId : Option String := none
  telegramUserId : Option Nat := none
deriving DecidableEq, Repr

/-- activeChats.get: first binding of the key in the association list. -/
def regGet : List (String × ChatState) → String → Option ChatState
  | [], _ => none
  | (k, v) :: rest, cid => if k = cid then some v else regGet rest cid

/-- activeChats.set: replace the binding if present, else append (JS Map). -/
def regSet : List (String × ChatState) → String → ChatState → List (String × ChatState)
  | [], cid, v => [(cid, v)]
  | (k, w) :: rest, cid, v =>
      if k = cid then (k, v) :: rest else (k, w) :: regSet rest cid v

/-- The keys of the registry, in insertion order. -/
def regKeys (reg : List (String × ChatState)) : List String := reg.map Prod.fst

/-- agentChatMap.get. -/
def amGet : List (Nat × String) → Nat → Option String
  | [], _ => none
  | (k, v) :: rest, tid => if k = tid then some v else amGet rest tid

/-- agentChatMap.set. -/
def amSet : List (Nat × String) → Nat → String → List (Nat × String)
  | [], tid, v => [(tid, v)]
  | (k, w) :: rest, tid, v =>
      if k = tid then (k, v) :: rest else (k, w) :: amSet rest tid v

/-- agentChatMap.delete. -/
def amDelete : List (Nat × String) → Nat → List (Nat × String)
  | [], _ => []
  | (k, w) :: rest, tid =>
      if k = tid then rest else (k, w) :: amDelete rest tid

/-- The full mutable server state: activeChats and agentChatMap. -/
structure ServerState where
  activeChats : List (String × ChatState)
  agentChatMap : List (Nat × String)
deriving DecidableEq, Repr

/-- JS truthiness of an optional string body field: undefined and the
empty string are falsy. -/
def jsTruthy : Option String → Bool
  | none => false
  | some s => !(s = "")

/-- JS String.prototype.includes on character lists. -/
def jsIncludesList (needle : List Char) : List Char → Bool
  | [] => needle.isEmpty
  | c :: t => needle.isPrefixOf (c :: t) || jsIncludesList needle t

/-- JS s.includes(pat). -/
def jsIncludes (s pat : String) : Bool := jsIncludesList pat.data s.data

/-- JS s.toLowerCase(): per-character case fold.  Defined structurally on
the character list (the library String.toLower is the same map but its
byte-position recursion does not reduce inside the kernel). -/
def jsToLower (s : String) : String := ⟨s.data.map Char.toLower⟩

/-- JS s.startsWith(pre), structurally. -/
def jsStartsWith (s pre : String) : Bool := pre.data.isPrefixOf s.data

/-- Helper for jsSplitSpace: accumulate the current field in reverse. -/
def splitSpaceAux : List Char → List Char → List String
  | [], acc => [⟨acc.reverse⟩]
  | c :: t, acc =>
      if c = ' ' then ⟨acc.reverse⟩ :: splitSpaceAux t []
      else splitSpaceAux t (c :: acc)

/-- JS s.split with a single-space separator, structurally. -/
def jsSplitSpace (s : String) : List String := splitSpaceAux s.data []

/-- JS s.trim() restricted to the space character, structurally. -/
def jsTrim (s : String) : String :=
  ⟨((s.data.dropWhile (fun c => c = ' ')).reverse.dropWhile (fun c => c = ' ')).reverse⟩

/-- Helper for parseIntNat: consume leading decimal digits. -/
def parseIntAux : List Char → Option Nat → Option Nat
  | [], acc => acc
  | c :: t, acc =>
      if c.isDigit then parseIntAux t (some ((acc.getD 0) * 10 + (c.toNat - 48)))
      else acc

/-- JS parseInt followed by the isNaN guard, for the nonnegative decimal
agent ids this server stores: none when no leading digit exists. -/
def parseIntNat (s : String) : Option Nat := parseIntAux s.data none

/-- Which telegram bot an outbound send goes through. -/
inductive BotUrl
  | customer
  | support
deriving DecidableEq, Repr

/-- Externally visible effects of a handler, in program order. -/
inductive Effect
  | tgSendAttempt (bot : BotUrl) (chatId : String) (text : String)
  | tgSendFailLog (chatId : String)
  | emit (event : String) (chatId : String)
  | dbAppend (chatId : String) (msg : Message)
  | dbUpdateChatSession (chatId : String)
  | dbUpsertAgent (telegramId : Nat)
  | dbSelect (tableName : String)
deriving DecidableEq, Repr

/-- tgSend: posts to the telegram sendMessage endpoint and catches any
failure, only logging it.  The outcome flag is the environment response;
the function completes normally either way and no error escapes. -/
def tgSend (outcome : Bool) (bot : BotUrl) (chatId text : String) : List Effect :=
  if outcome then [Effect.tgSendAttempt bot chatId text]
  else [Effect.tgSendAttempt bot chatId text, Effect.tgSendFailLog chatId]

/-- storeMessage: push the message onto the in-memory log when the chat
exists, and fire the asynchronous database append (appendMessage) when
supabase (sb) is configured.  appendMessage catches its own failures. -/
def storeMessage (sb : Bool) (reg : List (String × ChatState)) (chatId : String)
    (msg : Message) : List (String × ChatState) × List Effect :=
  match regGet reg chatId with
  | some chat =>
      (regSet reg chatId { chat with messages := chat.messages ++ [msg] },
       if sb then [Effect.dbAppend chatId msg] else [])
  | none => (reg, [])

/-- A keyword rule (interface AutoReply in autoreplies.ts). -/
structure AutoReply where
  keywords : List String
  reply : String
deriving DecidableEq, Repr

/-- The fixed rule list from autoreplies.ts, in source order. -/
def autoReplies : List AutoReply :=
  [ { keywords := ["hello", "hi", "hey"],
      reply := "👋 Hi there! I’m your virtual assistant. How can I help today?" },
    { keywords := ["price", "cost", "payment", "subscribe", "pricing", "plan", "plans"],
      reply := "💸 Our pricing plans: Starter $49/month (up to 500 patients), Professional $99/month (unlimited patients, AI automation) 🌟 Popular, Premium $199/month (up to 12 practitioners), Enterprise (custom pricing for 12+ practitioners). All plans include free trial!" },
    { keywords := ["support", "help", "problem", "issue"],
      reply := "🧑‍💻 I can guide you with basic support. If you want a human agent, just type *agent*." },
    { keywords := ["hours", "time", "open", "schedule"],
      reply := "⏰ Our support team is available 24/7 via chat or email." },
    { keywords := ["bye", "thanks", "thank you"],
      reply := "🙏 You\x27re welcome! Feel free to reach out anytime." } ]

/-- The loop body of getAutoReply: first rule with a keyword contained in
the normalized text wins; the loop walks the list in order. -/
def getAutoReplyGo (normalized : String) : List AutoReply → Option String
  | [] => none
  | r :: rs =>
      if r.keywords.any (fun kw => jsIncludes normalized kw) then some r.reply
      else getAutoReplyGo normalized rs

/-- getAutoReply from getAutoReplies.ts: lower-case the text, scan the rule
list, return the first matching reply, null (none) when nothing matches. -/
def getAutoReply (text : String) : Option String :=
  getAutoReplyGo (jsToLower text) autoReplies

/-- The escalation acknowledgment text sent when a user asks for a human. -/
def escalationAck : String :=
  "🙋 I\x27ve notified our support team. An agent will join you shortly."

/-- The fixed fallback reply sent when no keyword rule matches. -/
def fallbackReply : String :=
  "🤖 I\x27m not sure I understand. You can ask about prices, support, or type *agent* for human help."

/-- sendBotMessage: deliver via the customer bot when the chat is a
telegram chat with a known telegram user id, then store and emit the bot
message. -/
def sendBotMessage (o sb : Bool) (reg : List (String × ChatState)) (chatId text : String)
    (source : Source) (now : Nat) : List (String × ChatState) × List Effect :=
  let chat := regGet reg chatId
  let sendEffs :=
    match source, chat with
    | Source.telegram, some c =>
        match c.telegramUserId with
        | some tuid => tgSend o BotUrl.customer (toString tuid) text
        | none => []
    | _, _ => []
  let msg : Message := { sender := Sender.bot, text := text, timestamp := now }
  let (reg1, stEffs) := storeMessage sb reg chatId msg
  (reg1, sendEffs ++ stEffs ++ [Effect.emit "bot_message" chatId])

/-- handleBotReply: for a bot-mode chat, detect an escalation request
(normalized equality with agent, or substring match on the three phrases),
else try the keyword rules, else send the fixed fallback. -/
def handleBotReply (o sb : Bool) (reg : List (String × ChatState)) (chatId text : String)
    (source : Source) (now : Nat) : List (String × ChatState) × List Effect :=
  match regGet reg chatId with
  | none => (reg, [])
  | some chat =>
      if chat.mode ≠ Mode.bot then (reg, [])
      else
        let normalized := jsToLower text
        if normalized = "agent" || jsIncludes normalized "talk to human"
            || jsIncludes normalized "speak to human"
            || jsIncludes normalized "human support" then
          let reg1 := regSet reg chatId { chat with requestingHuman := true }
          let (reg2, effs) := sendBotMessage o sb reg1 chatId escalationAck source now
          (reg2, Effect.emit "human_support_requested" chatId :: effs)
        else
          match getAutoReply text with
          | some reply => sendBotMessage o sb reg chatId reply source now
          | none => sendBotMessage o sb reg chatId fallbackReply source now

/-- HTTP responses the dashboard endpoints produce. -/
inductive Resp
  | sendStatus (code : Nat)
  | jsonOk
  | jsonErr (code : Nat) (msg : String)
deriving DecidableEq, Repr

/-- A normalized inbound telegram update: message.from.id, message.text,
message.from.first_name, message.from.last_name. -/
structure TgMessage where
  fromId : Nat
  text : Option String := none
  firstName : Option String := none
  lastName : Option String := none
deriving DecidableEq, Repr

/-- POST /send: deliver an agent message to the user.  The chat lookup is
optional; storeMessage silently does nothing when the chat is unknown.
The try block cannot throw (tgSend catches internally), so the handler
always answers with ok true once the body check passes. -/
def postSend (o sb : Bool) (st : ServerState) (chatId message agentId agentName : Option String)
    (now : Nat) : ServerState × List Effect × Resp :=
  if !(jsTruthy chatId) || !(jsTruthy message) then
    (st, [], Resp.jsonErr 400 "Missing chatId or message")
  else
    let cid := chatId.getD ""
    let m := message.getD ""
    let chat := regGet st.activeChats cid
    let sendEffs :=
      match chat with
      | some c =>
          match c.source, c.telegramUserId with
          | Source.telegram, some tuid => tgSend o BotUrl.customer (toString tuid) m
          | _, _ => []
      | none => []
    let agentMessage : Message :=
      { sender := Sender.agent, text := m, timestamp := now,
        agentId := agentId, agentName := agentName }
    let (reg1, stEffs) := storeMessage sb st.activeChats cid agentMessage
    ({ st with activeChats := reg1 },
     sendEffs ++ stEffs ++ [Effect.emit "message_from_agent" cid], Resp.jsonOk)

/-- POST /takeover: switch the chat to human mode and record the agent.
A system join message is stored only when the previous mode was bot and an
agentName was supplied; the database update runs only when the chat was
found. -/
def postTakeover (sb : Bool) (st : ServerState) (chatId agentId agentName : Option String)
    (now : Nat) : ServerState × List Effect × Resp :=
  if !(jsTruthy chatId) || !(jsTruthy agentId) then
    (st, [], Resp.jsonErr 400 "Missing chatId or agentId")
  else
    let cid := chatId.getD ""
    let aid := agentId.getD ""
    match regGet st.activeChats cid with
    | none => (st, [Effect.emit "chat_mode_changed" cid], Resp.jsonOk)
    | some chat =>
        let previousMode := chat.mode
        let chat1 := { chat with mode := Mode.human, agentId := some aid,
                                 agentName := agentName, requestingHuman := false }
        let reg1 := regSet st.activeChats cid chat1
        let (reg2, effs1) :=
          if previousMode = Mode.bot ∧ jsTruthy agentName then
            storeMessage sb reg1 cid
              { sender := Sender.system, text := (agentName.getD "") ++ " connected",
                timestamp := now }
          else (reg1, [])
        let dbEffs := if sb then [Effect.dbUpdateChatSession cid] else []
        ({ st with activeChats := reg2 },
         effs1 ++ dbEffs ++ [Effect.emit "chat_mode_changed" cid], Resp.jsonOk)

/-- POST /release: return the chat to bot mode and clear the agent
fields.  No system message is stored on this path. -/
def postRelease (sb : Bool) (st : ServerState) (chatId : Option String) :
    ServerState × List Effect × Resp :=
  if !(jsTruthy chatId) then (st, [], Resp.jsonErr 400 "Missing chatId")
  else
    let cid := chatId.getD ""
    match regGet st.activeChats cid with
    | none => (st, [Effect.emit "chat_mode_changed" cid], Resp.jsonOk)
    | some chat =>
        let chat1 := { chat with mode := Mode.bot, agentId := none,
                                 agentName := none, requestingHuman := false }
        let reg1 := regSet st.activeChats cid chat1
        let dbEffs := if sb then [Effect.dbUpdateChatSession cid] else []
        ({ st with activeChats := reg1 },
         dbEffs ++ [Effect.emit "chat_mode_changed" cid], Resp.jsonOk)

/-- The customer-bot webhook handler (first POST /webhook registration).
Lines 218 to 243 of the source resolve the supabase chat_sessions row for
the telegram user and yield its row id; that database round trip is
abstracted as the resolvedChatId parameter, since every claim concerns the
in-memory registry keyed by that id.  The agent id is parsed with
parseInt before forwarding; the parse is modelled with parseIntNat. -/
def customerWebhook (o sb : Bool) (st : ServerState) (msg : Option TgMessage)
    (resolvedChatId : String) (now : Nat) : ServerState × List Effect × Resp :=
  match msg with
  | none => (st, [], Resp.sendStatus 200)
  | some m =>
      let telegramUserId := m.fromId
      let text := m.text.getD ""
      let firstName := m.firstName.getD ""
      let lastName := m.lastName.getD ""
      let fromName := jsTrim (firstName ++ " " ++ lastName)
      if !sb then (st, [], Resp.sendStatus 200)
      else
        let chatId := resolvedChatId
        let ensured : ChatState :=
          match regGet st.activeChats chatId with
          | none =>
              { mode := Mode.bot, messages := [], source := Source.telegram,
                userFirstName := some firstName, userLastName := some lastName,
                userId := some (toString telegramUserId),
                telegramUserId := some telegramUserId }
          | some chat =>
              { chat with userFirstName := some firstName,
                          userLastName := some lastName,
                          telegramUserId := some telegramUserId }
        let reg0 := regSet st.activeChats chatId ensured
        let userMessage : Message :=
          { sender := Sender.user, text := text, timestamp := now }
        let (reg1, effs1) := storeMessage sb reg0 chatId userMessage
        let effs2 := [Effect.emit "message_from_user" chatId]
        if ensured.mode = Mode.human ∧ ensured.agentId.isSome then
          let forwardEffs :=
            match parseIntNat (ensured.agentId.getD "") with
            | some agentTelegramId =>
                tgSend o BotUrl.support (toString agentTelegramId)
                  ("💬 Message from <b>" ++ fromName ++ "</b> (Chat: <code>"
                    ++ chatId ++ "</code>):\n\n" ++ text)
            | none => []
          ({ st with activeChats := reg1 }, effs1 ++ effs2 ++ forwardEffs,
           Resp.sendStatus 200)
        else
          let (reg2, effs3) := handleBotReply o sb reg1 chatId text Source.telegram now
          ({ st with activeChats := reg2 }, effs1 ++ effs2 ++ effs3,
           Resp.sendStatus 200)

/-- The support-bot webhook handler (second POST /webhook registration).
The chat listing text of the /list branch depends on the database rows and
is abstracted as a fixed placeholder; that branch never changes state. -/
def supportWebhook (o sb : Bool) (st : ServerState) (msg : Option TgMessage)
    (now : Nat) : ServerState × List Effect × Resp :=
  match msg with
  | none => (st, [], Resp.sendStatus 200)
  | some m =>
      let telegramId := m.fromId
      let text := m.text.getD ""
      let agentName := m.firstName.getD "Agent"
      let tid := toString telegramId
      if !sb then (st, [], Resp.sendStatus 200)
      else if text = "/start" then
        (st, Effect.dbUpsertAgent telegramId ::
          tgSend o BotUrl.support tid
            ("👋 Welcome, support agent!\n\nCommands:\n/list - View active chats\n"
              ++ "/open <chat_id> - Open a chat\n/release - Release current chat\n"
              ++ "Type messages normally to reply to users."),
         Resp.sendStatus 200)
      else if text = "/list" then
        (st, Effect.dbSelect "chat_sessions" ::
          tgSend o BotUrl.support tid "(active chats listing)", Resp.sendStatus 200)
      else if jsStartsWith text "/open" then
        let chatIdOpt := (jsSplitSpace text)[1]?
        if !(jsTruthy chatIdOpt) then
          (st, tgSend o BotUrl.support tid "Usage: /open <chat_id>", Resp.sendStatus 200)
        else
          let chatId := chatIdOpt.getD ""
          let am1 := amSet st.agentChatMap telegramId chatId
          let (reg1, effs1) :=
            match regGet st.activeChats chatId with
            | some chat =>
                let chat1 := { chat with mode := Mode.human,
                                         agentId := some tid,
                                         agentName := some agentName,
                                         requestingHuman := false }
                let regA := regSet st.activeChats chatId chat1
                storeMessage sb regA chatId
                  { sender := Sender.system, text := agentName ++ " connected",
                    timestamp := now }
            | none => (st.activeChats, [])
          ({ activeChats := reg1, agentChatMap := am1 },
           effs1 ++ [Effect.dbUpdateChatSession chatId,
                     Effect.emit "chat_mode_changed" chatId]
             ++ tgSend o BotUrl.support tid
                  ("✅ Opened chat <code>" ++ chatId
                    ++ "</code>\nYou\x27re now in human mode. Send messages normally."),
           Resp.sendStatus 200)
      else if text = "/release" then
        match amGet st.agentChatMap telegramId with
        | none =>
            (st, tgSend o BotUrl.support tid "No chat is currently opened.",
             Resp.sendStatus 200)
        | some currentChat =>
            let am1 := amDelete st.agentChatMap telegramId
            let reg1 :=
              match regGet st.activeChats currentChat with
              | some chat =>
                  regSet st.activeChats currentChat
                    { chat with mode := Mode.bot, agentId := none,
                                agentName := none, requestingHuman := false }
              | none => st.activeChats
            ({ activeChats := reg1, agentChatMap := am1 },
             [Effect.dbUpdateChatSession currentChat,
              Effect.emit "chat_mode_changed" currentChat]
               ++ tgSend o BotUrl.support tid
                    ("🔓 Released chat <code>" ++ currentChat ++ "</code>"),
             Resp.sendStatus 200)
      else
        match amGet st.agentChatMap telegramId with
        | some currentChat =>
            match regGet st.activeChats currentChat with
            | none =>
                (st, tgSend o BotUrl.support tid "Chat not found in active chats.",
                 Resp.sendStatus 200)
            | some chat =>
                let agentMessage : Message :=
                  { sender := Sender.agent, text := text, timestamp := now,
                    agentId := some tid, agentName := some agentName }
                let (reg1, effs1) := storeMessage sb st.activeChats currentChat agentMessage
                let fwd :=
                  match chat.telegramUserId with
                  | some tuid => tgSend o BotUrl.customer (toString tuid) text
                  | none => []
                ({ st with activeChats := reg1 },
                 effs1 ++ fwd ++ [Effect.emit "message_from_agent" currentChat],
                 Resp.sendStatus 200)
        | none =>
            (st, tgSend o BotUrl.support tid
              "Use /list to view chats or /open <id> to start chatting.",
             Resp.sendStatus 200)

/-- Socket user_message: ensure the chat exists (web origin, bot mode on
creation), store and emit the user message, then either stop (human mode)
or run the auto-responder. -/
def socketUserMessage (o sb : Bool) (st : ServerState) (chatId text : String)
    (userFirstName userLastName userId : Option String) (now : Nat) :
    ServerState × List Effect :=
  let (ensured, createdEffs) :=
    match regGet st.activeChats chatId with
    | none =>
        ({ mode := Mode.bot, messages := [], source := Source.web,
           userFirstName := userFirstName, userLastName := userLastName,
           userId := userId : ChatState },
         [Effect.emit "chat_mode_changed" chatId])
    | some chat =>
        ({ chat with
            userFirstName := if jsTruthy userFirstName then userFirstName else chat.userFirstName,
            userLastName := if jsTruthy userLastName then userLastName else chat.userLastName,
            userId := if jsTruthy userId then userId else chat.userId },
         [])
  let reg0 := regSet st.activeChats chatId ensured
  let userMessage : Message := { sender := Sender.user, text := text, timestamp := now }
  let (reg1, effs1) := storeMessage sb reg0 chatId userMessage
  let effs2 := [Effect.emit "message_from_user" chatId]
  if ensured.mode = Mode.human then
    ({ st with activeChats := reg1 }, createdEffs ++ effs1 ++ effs2)
  else
    let (reg2, effs3) := handleBotReply o sb reg1 chatId text Source.web now
    ({ st with activeChats := reg2 }, createdEffs ++ effs1 ++ effs2 ++ effs3)

/-- Socket send_message: like POST /send but without a response and with
no body validation; the catch branch is unreachable because tgSend never
throws. -/
def socketSendMessage (o sb : Bool) (st : ServerState) (chatId message : String)
    (agentId agentName : Option String) (now : Nat) : ServerState × List Effect :=
  let chat := regGet st.activeChats chatId
  let sendEffs :=
    match chat with
    | some c =>
        match c.source, c.telegramUserId with
        | Source.telegram, some tuid => tgSend o BotUrl.customer (toString tuid) message
        | _, _ => []
    | none => []
  let agentMessage : Message :=
    { sender := Sender.agent, text := message, timestamp := now,
      agentId := agentId, agentName := agentName }
  let (reg1, stEffs) := storeMessage sb st.activeChats chatId agentMessage
  ({ st with activeChats := reg1 },
   sendEffs ++ stEffs ++ [Effect.emit "message_from_agent" chatId])

/-- Socket takeover: the payload fields are not validated; agentId and
agentName are assigned to the chat as received, possibly absent. -/
def socketTakeover (sb : Bool) (st : ServerState) (chatId : String)
    (agentId agentName : Option String) (now : Nat) : ServerState × List Effect :=
  match regGet st.activeChats chatId with
  | none => (st, [Effect.emit "chat_mode_changed" chatId])
  | some chat =>
      let previousMode := chat.mode
      let chat1 := { chat with mode := Mode.human, agentId := agentId,
                               agentName := agentName, requestingHuman := false }
      let reg1 := regSet st.activeChats chatId chat1
      let (reg2, effs) :=
        if previousMode = Mode.bot ∧ jsTruthy agentName then
          storeMessage sb reg1 chatId
            { sender := Sender.system, text := (agentName.getD "") ++ " connected",
              timestamp := now }
        else (reg1, [])
      ({ st with activeChats := reg2 }, effs ++ [Effect.emit "chat_mode_changed" chatId])

/-- Socket release: back to bot mode, clear the agent fields. -/
def socketRelease (st : ServerState) (chatId : String) : ServerState × List Effect :=
  match regGet st.activeChats chatId with
  | none => (st, [Effect.emit "chat_mode_changed" chatId])
  | some chat =>
      let chat1 : ChatState :=
        { chat with mode := Mode.bot, agentId := none,
                    agentName := none, requestingHuman := false }
      ({ st with activeChats := regSet st.activeChats chatId chat1 },
       [Effect.emit "chat_mode_changed" chatId])

/-- The express handlers of server.ts, by registration site. -/
inductive HandlerId
  | customerBotWebhook
  | supportBotWebhook
  | healthCheck
  | sendEndpoint
  | takeoverEndpoint
  | releaseEndpoint
  | chatSessionEndpoint
  | chatHistoryEndpoint
  | chatSessionsEndpoint
deriving DecidableEq, Repr

/-- HTTP methods used by the route registrations. -/
inductive Method
  | get
  | post
deriving DecidableEq, Repr

/-- One app.get or app.post registration. -/
structure RouteEntry where
  method : Method
  path : String
  handler : HandlerId
deriving DecidableEq, Repr

/-- The route registrations of server.ts in source order.  Both webhook
handlers are registered on POST /webhook. -/
def routeTable : List RouteEntry :=
  [ { method := Method.post, path := "/webhook", handler := HandlerId.customerBotWebhook },
    { method := Method.post, path := "/webhook", handler := HandlerId.supportBotWebhook },
    { method := Method.get, path := "/health", handler := HandlerId.healthCheck },
    { method := Method.post, path := "/send", handler := HandlerId.sendEndpoint },
    { method := Method.post, path := "/takeover", handler := HandlerId.takeoverEndpoint },
    { method := Method.post, path := "/release", handler := HandlerId.releaseEndpoint },
    { method := Method.post, path := "/api/chat/session", handler := HandlerId.chatSessionEndpoint },
    { method := Method.get, path := "/api/chat/history/:chatId", handler := HandlerId.chatHistoryEndpoint },
    { method := Method.get, path := "/api/chat/sessions/:userId", handler := HandlerId.chatSessionsEndpoint } ]

/-- Whether a handler ever passes control to the next matching route by
calling next().  No handler in server.ts declares a next parameter or
calls it; every code path answers the request itself. -/
def callsNext : HandlerId → Bool := fun _ => false

/-- Express dispatch over the matching routes: run handlers in
registration order; stop after the first handler that does not call
next(). -/
def dispatchGo : List RouteEntry → List HandlerId
  | [] => []
  | r :: rs => if callsNext r.handler then r.handler :: dispatchGo rs else [r.handler]

/-- The handlers that actually process a request with the given method
and path, in execution order. -/
def executedHandlers (m : Method) (p : String) : List HandlerId :=
  dispatchGo (routeTable.filter (fun r => r.method = m ∧ r.path = p))

/-- The escalation trigger check of handleBotReply, as a standalone
predicate over the inbound text: equality with agent, substring match on
the three phrases, all on the lower-cased text. -/
def isEscalationText (text : String) : Bool :=
  let normalized := jsToLower text
  normalized = "agent" || jsIncludes normalized "talk to human"
    || jsIncludes normalized "speak to human"
    || jsIncludes normalized "human support"

/-- The per-session invariant of claim C1: the agent is recorded exactly
on sessions in human mode. -/
def chatOk (c : ChatState) : Bool := c.agentId.isSome == (c.mode == Mode.human)

/-- The registry-wide invariant of claim C1. -/
def agentInvB (reg : List (String × ChatState)) : Bool := reg.all (fun p => chatOk p.2)

/-- The message log of a session, empty when the session is unknown. -/
def msgsAt (st : ServerState) (cid : String) : List Message :=
  match regGet st.activeChats cid with
  | some c => c.messages
  | none => []

/-- Whether an effect is a delivery to the support bot (an agent channel). -/
def isSupportSend : Effect → Bool
  | Effect.tgSendAttempt BotUrl.support _ _ => true
  | _ => false

/-- Whether an effect is an outbound telegram delivery attempt. -/
def isSendAttempt : Effect → Bool
  | Effect.tgSendAttempt _ _ _ => true
  | _ => false

/-- Whether an effect is the console log of a failed delivery. -/
def isFailLog : Effect → Bool
  | Effect.tgSendFailLog _ => true
  | _ => false

/-- A fresh web-origin bot-mode session used as concrete test input. -/
def demoWebChat : ChatState :=
  { mode := Mode.bot, messages := [], source := Source.web }

/-- A telegram-origin session owned by a human agent, used as concrete
test input. -/
def demoHumanTgChat : ChatState :=
  { mode := Mode.human, agentId := some "55", agentName := some "Ann",
    messages := [], source := Source.telegram, telegramUserId := some 99 }

/-- The empty server state, used as concrete test input. -/
def emptyState : ServerState := { activeChats := [], agentChatMap := [] }

/-- A server state with one web bot-mode session under the key c8. -/
def c8State : ServerState := { activeChats := [("c8", demoWebChat)], agentChatMap := [] }

/-- A server state with one web bot-mode session under the key c2. -/
def c2State : ServerState := { activeChats := [("c2", demoWebChat)], agentChatMap := [] }

/-- A server state with one human-owned telegram session under c2h. -/
def c2hState : ServerState := { activeChats := [("c2h", demoHumanTgChat)], agentChatMap := [] }

/-- Concrete run for claim C3: initial state with one bot-mode session. -/
def c3State0 : ServerState := { activeChats := [("c3", demoWebChat)], agentChatMap := [] }

/-- Concrete run for claim C3: after the takeover command. -/
def c3State1 : ServerState :=
  (postTakeover true c3State0 (some "c3") (some "a1") (some "Alice") 5).1

/-- Concrete run for claim C3: after the release command. -/
def c3State2 : ServerState := (postRelease true c3State1 (some "c3")).1

-- ===================================================================
-- Registry lemmas
-- ===================================================================

theorem regGet_regSet (reg : List (String × ChatState)) (k : String) (v : ChatState)
    (q : String) : regGet (regSet reg k v) q = if k = q then some v else regGet reg q := by
  induction reg with
  | nil => by_cases h : k = q <;> simp [regSet, regGet, h]
  | cons a rest ih =>
      obtain ⟨ak, aw⟩ := a
      by_cases h1 : ak = k
      · subst h1
        by_cases h2 : ak = q <;> simp [regSet, regGet, h2]
      · by_cases h2 : ak = q
        · subst h2
          have hne : ¬ k = ak := fun hh => h1 hh.symm
          simp [regSet, regGet, h1, hne]
        · simp [regSet, regGet, h1, h2, ih]

theorem regKeys_regSet_existing (reg : List (String × ChatState)) (k : String)
    (v : ChatState) (h : (regGet reg k).isSome) :
    regKeys (regSet reg k v) = regKeys reg := by
  induction reg with
  | nil => simp [regGet] at h
  | cons a rest ih =>
      obtain ⟨ak, aw⟩ := a
      by_cases h1 : ak = k
      · simp [regSet, regKeys, h1]
      · simp [regGet, h1] at h
        simp [regSet, regKeys, h1] at ih ⊢
        exact ih h

theorem regKeys_regSet_new (reg : List (String × ChatState)) (k : String)
    (v : ChatState) (h : regGet reg k = none) :
    regKeys (regSet reg k v) = regKeys reg ++ [k] := by
  induction reg with
  | nil => simp [regSet, regKeys]
  | cons a rest ih =>
      obtain ⟨ak, aw⟩ := a
      by_cases h1 : ak = k
      · simp [regGet, h1] at h
      · simp [regGet, h1] at h
        simp [regSet, regKeys, h1] at ih ⊢
        exact ih h

theorem agentInvB_regSet (reg : List (String × ChatState)) (k : String) (v : ChatState)
    (hreg : agentInvB reg = true) (hv : chatOk v = true) :
    agentInvB (regSet reg k v) = true := by
  induction reg with
  | nil => simp [regSet, agentInvB, hv]
  | cons a rest ih =>
      obtain ⟨ak, aw⟩ := a
      simp [agentInvB] at hreg
      by_cases h1 : ak = k
      · simp [regSet, agentInvB, h1, hv]
        exact hreg.2
      · simp [regSet, agentInvB, h1, hreg.1]
        have := ih (by simp [agentInvB]; exact hreg.2)
        simpa [agentInvB] using this

theorem agentInvB_get (reg : List (String × ChatState)) (k : String) (c : ChatState)
    (hreg : agentInvB reg = true) (hget : regGet reg k = some c) : chatOk c = true := by
  induction reg with
  | nil => simp [regGet] at hget
  | cons a rest ih =>
      obtain ⟨ak, aw⟩ := a
      simp [agentInvB] at hreg
      by_cases h1 : ak = k
      · simp [regGet, h1] at hget
        simpa [← hget] using hreg.1
      · simp [regGet, h1] at hget
        exact ih (by simp [agentInvB]; exact hreg.2) hget

-- ===================================================================
-- storeMessage / sendBotMessage / handleBotReply lemmas
-- ===================================================================

theorem storeMessage_fst_none (sb : Bool) (reg : List (String × ChatState)) (cid : String)
    (m : Message) (hg : regGet reg cid = none) : (storeMessage sb reg cid m).1 = reg := by
  simp [storeMessage, hg]

theorem storeMessage_fst_some (sb : Bool) (reg : List (String × ChatState)) (cid : String)
    (m : Message) (chat : ChatState) (hg : regGet reg cid = some chat) :
    (storeMessage sb reg cid m).1
      = regSet reg cid { chat with messages := chat.messages ++ [m] } := by
  simp [storeMessage, hg]

theorem storeMessage_snd_sub (sb : Bool) (reg : List (String × ChatState)) (cid : String)
    (m : Message) (e : Effect) (he : e ∈ (storeMessage sb reg cid m).2) :
    e = Effect.dbAppend cid m := by
  unfold storeMessage at he
  cases hg : regGet reg cid <;> simp [hg] at he
  cases sb <;> simp_all

theorem agentInvB_storeMessage (sb : Bool) (reg : List (String × ChatState)) (cid : String)
    (m : Message) (h : agentInvB reg = true) :
    agentInvB (storeMessage sb reg cid m).1 = true := by
  unfold storeMessage
  cases hg : regGet reg cid with
  | none => simpa [hg] using h
  | some chat =>
      simp only [hg]
      apply agentInvB_regSet _ _ _ h
      have := agentInvB_get reg cid chat h hg
      simpa [chatOk] using this

theorem regKeys_storeMessage (sb : Bool) (reg : List (String × ChatState)) (cid : String)
    (m : Message) : regKeys (storeMessage sb reg cid m).1 = regKeys reg := by
  unfold storeMessage
  cases hg : regGet reg cid with
  | none => simp [hg]
  | some chat =>
      simp only [hg]
      exact regKeys_regSet_existing reg cid _ (by simp [hg])

theorem modeAt_storeMessage (sb : Bool) (reg : List (String × ChatState)) (cid : String)
    (m : Message) (q : String) :
    (regGet (storeMessage sb reg cid m).1 q).map ChatState.mode
      = (regGet reg q).map ChatState.mode := by
  unfold storeMessage
  cases hg : regGet reg cid with
  | none => simp [hg]
  | some chat =>
      simp only [hg, regGet_regSet]
      by_cases h : cid = q
      · subst h; simp [hg]
      · simp [h]

theorem sendBotMessage_fst (o sb : Bool) (reg : List (String × ChatState))
    (cid text : String) (src : Source) (now : Nat) :
    (sendBotMessage o sb reg cid text src now).1
      = (storeMessage sb reg cid
          { sender := Sender.bot, text := text, timestamp := now }).1 := by
  unfold sendBotMessage
  rcases hsm : storeMessage sb reg cid
      { sender := Sender.bot, text := text, timestamp := now } with ⟨reg1, effs⟩
  simp [hsm]

theorem tgSend_mem (o : Bool) (b : BotUrl) (q t : String) (e : Effect)
    (he : e ∈ tgSend o b q t) :
    e = Effect.tgSendAttempt b q t ∨ e = Effect.tgSendFailLog q := by
  unfold tgSend at he
  cases o <;> simp_all

theorem emit_mem_sendBotMessage (o sb : Bool) (reg : List (String × ChatState))
    (cid text : String) (src : Source) (now : Nat) (ev q : String) :
    Effect.emit ev q ∈ (sendBotMessage o sb reg cid text src now).2
      ↔ (ev = "bot_message" ∧ q = cid) := by
  rcases hsm : storeMessage sb reg cid
      { sender := Sender.bot, text := text, timestamp := now } with ⟨reg1, effs⟩
  constructor
  · intro he
    unfold sendBotMessage at he
    simp only [hsm] at he
    simp at he
    rcases he with he | he | he
    · split at he
      · split at he
        · rcases tgSend_mem _ _ _ _ _ he with h | h <;> simp at h
        · simp at he
      · simp at he
    · have h2 : Effect.emit ev q ∈ (storeMessage sb reg cid
          { sender := Sender.bot, text := text, timestamp := now }).2 := by
        rw [hsm]; exact he
      have := storeMessage_snd_sub sb reg cid _ _ h2
      simp at this
    · simp_all
  · rintro ⟨rfl, rfl⟩
    unfold sendBotMessage
    simp only [hsm]
    simp

theorem agentInvB_sendBotMessage (o sb : Bool) (reg : List (String × ChatState))
    (cid text : String) (src : Source) (now : Nat) (h : agentInvB reg = true) :
    agentInvB (sendBotMessage o sb reg cid text src now).1 = true := by
  rw [sendBotMessage_fst]
  exact agentInvB_storeMessage _ _ _ _ h

theorem regKeys_sendBotMessage (o sb : Bool) (reg : List (String × ChatState))
    (cid text : String) (src : Source) (now : Nat) :
    regKeys (sendBotMessage o sb reg cid text src now).1 = regKeys reg := by
  rw [sendBotMessage_fst]
  exact regKeys_storeMessage _ _ _ _

theorem modeAt_sendBotMessage (o sb : Bool) (reg : List (String × ChatState))
    (cid text : String) (src : Source) (now : Nat) (q : String) :
    (regGet (sendBotMessage o sb reg cid text src now).1 q).map ChatState.mode
      = (regGet reg q).map ChatState.mode := by
  rw [sendBotMessage_fst]
  exact modeAt_storeMessage _ _ _ _ _

/-- handleBotReply re-expressed through the named escalation predicate;
the two guard expressions are definitionally the same. -/
theorem handleBotReply_eq (o sb : Bool) (reg : List (String × ChatState))
    (cid text : String) (src : Source) (now : Nat) :
    handleBotReply o sb reg cid text src now =
      match regGet reg cid with
      | none => (reg, [])
      | some chat =>
          if chat.mode ≠ Mode.bot then (reg, [])
          else if isEscalationText text then
            let reg1 := regSet reg cid { chat with requestingHuman := true }
            let r := sendBotMessage o sb reg1 cid escalationAck src now
            (r.1, Effect.emit "human_support_requested" cid :: r.2)
          else
            match getAutoReply text with
            | some reply => sendBotMessage o sb reg cid reply src now
            | none => sendBotMessage o sb reg cid fallbackReply src now := by
  unfold handleBotReply isEscalationText
  cases hg : regGet reg cid with
  | none => rfl
  | some chat =>
      by_cases hm : chat.mode ≠ Mode.bot
      · simp [hm]
      · simp only [hm, if_false, ite_false, if_neg]

theorem agentInvB_handleBotReply (o sb : Bool) (reg : List (String × ChatState))
    (cid text : String) (src : Source) (now : Nat) (h : agentInvB reg = true) :
    agentInvB (handleBotReply o sb reg cid text src now).1 = true := by
  rw [handleBotReply_eq]
  cases hg : regGet reg cid with
  | none => simpa using h
  | some chat =>
      by_cases hm : chat.mode ≠ Mode.bot
      · simpa [hm] using h
      · simp only [hm, if_false, ite_false, if_neg]
        cases hesc : isEscalationText text with
        | true =>
            simp only [if_pos, if_true, ite_true]
            apply agentInvB_sendBotMessage
            apply agentInvB_regSet _ _ _ h
            have := agentInvB_get reg cid chat h hg
            simpa [chatOk] using this
        | false =>
            simp only [Bool.false_eq_true, if_false, ite_false]
            cases getAutoReply text <;> simp <;> exact agentInvB_sendBotMessage _ _ _ _ _ _ _ h

theorem regKeys_handleBotReply (o sb : Bool) (reg : List (String × ChatState))
    (cid text : String) (src : Source) (now : Nat) :
    regKeys (handleBotReply o sb reg cid text src now).1 = regKeys reg := by
  rw [handleBotReply_eq]
  cases hg : regGet reg cid with
  | none => simp
  | some chat =>
      by_cases hm : chat.mode ≠ Mode.bot
      · simp [hm]
      · simp only [hm, if_false, ite_false, if_neg]
        cases hesc : isEscalationText text with
        | true =>
            simp only [if_pos, if_true, ite_true]
            rw [regKeys_sendBotMessage]
            exact regKeys_regSet_existing reg cid _ (by simp [hg])
        | false =>
            simp only [Bool.false_eq_true, if_false, ite_false]
            cases getAutoReply text <;> simp [regKeys_sendBotMessage]

theorem modeAt_handleBotReply (o sb : Bool) (reg : List (String × ChatState))
    (cid text : String) (src : Source) (now : Nat) (q : String) :
    (regGet (handleBotReply o sb reg cid text src now).1 q).map ChatState.mode
      = (regGet reg q).map ChatState.mode := by
  rw [handleBotReply_eq]
  cases hg : regGet reg cid with
  | none => simp
  | some chat =>
      by_cases hm : chat.mode ≠ Mode.bot
      · simp [hm]
      · simp only [hm, if_false, ite_false, if_neg]
        cases hesc : isEscalationText text with
        | true =>
            simp only [if_pos, if_true, ite_true]
            rw [modeAt_sendBotMessage, regGet_regSet]
            by_cases hq : cid = q
            · subst hq; simp [hg]
            · simp [hq]
        | false =>
            simp only [Bool.false_eq_true, if_false, ite_false]
            cases getAutoReply text <;> simp [modeAt_sendBotMessage]

theorem regGet_storeMessage_self (sb : Bool) (reg : List (String × ChatState))
    (cid : String) (m : Message) (chat : ChatState) (hg : regGet reg cid = some chat) :
    regGet (storeMessage sb reg cid m).1 cid
      = some { chat with messages := chat.messages ++ [m] } := by
  rw [storeMessage_fst_some sb reg cid m chat hg, regGet_regSet]
  simp

theorem rhAt_storeMessage (sb : Bool) (reg : List (String × ChatState)) (cid : String)
    (m : Message) (q : String) :
    (regGet (storeMessage sb reg cid m).1 q).map ChatState.requestingHuman
      = (regGet reg q).map ChatState.requestingHuman := by
  unfold storeMessage
  cases hg : regGet reg cid with
  | none => simp [hg]
  | some chat =>
      simp only [hg, regGet_regSet]
      by_cases h : cid = q
      · subst h; simp [hg]
      · simp [h]

theorem rhAt_sendBotMessage (o sb : Bool) (reg : List (String × ChatState))
    (cid text : String) (src : Source) (now : Nat) (q : String) :
    (regGet (sendBotMessage o sb reg cid text src now).1 q).map ChatState.requestingHuman
      = (regGet reg q).map ChatState.requestingHuman := by
  rw [sendBotMessage_fst]
  exact rhAt_storeMessage _ _ _ _ _

theorem sendBotMessage_no_support (o sb : Bool) (reg : List (String × ChatState))
    (cid text : String) (src : Source) (now : Nat) (e : Effect)
    (he : e ∈ (sendBotMessage o sb reg cid text src now).2) :
    isSupportSend e = false := by
  rcases hsm : storeMessage sb reg cid
      { sender := Sender.bot, text := text, timestamp := now } with ⟨reg1, effs⟩
  unfold sendBotMessage at he
  simp only [hsm] at he
  simp at he
  rcases he with he | he | he
  · split at he
    · split at he
      · rcases tgSend_mem _ _ _ _ _ he with h | h <;> subst h <;> rfl
      · simp at he
    · simp at he
  · have h2 : e ∈ (storeMessage sb reg cid
        { sender := Sender.bot, text := text, timestamp := now }).2 := by
      rw [hsm]; exact he
    rw [storeMessage_snd_sub sb reg cid _ _ h2]; rfl
  · subst he; rfl

theorem handleBotReply_no_support (o sb : Bool) (reg : List (String × ChatState))
    (cid text : String) (src : Source) (now : Nat) (e : Effect)
    (he : e ∈ (handleBotReply o sb reg cid text src now).2) :
    isSupportSend e = false := by
  rw [handleBotReply_eq] at he
  cases hg : regGet reg cid with
  | none => rw [hg] at he; simp at he
  | some chat =>
      rw [hg] at he
      by_cases hm : chat.mode ≠ Mode.bot
      · simp [hm] at he
      · simp only [hm, if_false, ite_false, if_neg] at he
        cases hesc : isEscalationText text with
        | true =>
            rw [hesc] at he
            simp at he
            rcases he with he | he
            · subst he; rfl
            · exact sendBotMessage_no_support _ _ _ _ _ _ _ _ he
        | false =>
            rw [hesc] at he
            simp at he
            cases hga : getAutoReply text with
            | some reply =>
                rw [hga] at he
                exact sendBotMessage_no_support _ _ _ _ _ _ _ _ he
            | none =>
                rw [hga] at he
                exact sendBotMessage_no_support _ _ _ _ _ _ _ _ he

theorem sendBotMessage_fst_outcome (o sb : Bool) (reg : List (String × ChatState))
    (cid text : String) (src : Source) (now : Nat) :
    (sendBotMessage o sb reg cid text src now).1
      = (sendBotMessage true sb reg cid text src now).1 := by
  rw [sendBotMessage_fst, sendBotMessage_fst]

theorem handleBotReply_fst_outcome (o sb : Bool) (reg : List (String × ChatState))
    (cid text : String) (src : Source) (now : Nat) :
    (handleBotReply o sb reg cid text src now).1
      = (handleBotReply true sb reg cid text src now).1 := by
  rw [handleBotReply_eq, handleBotReply_eq]
  cases hg : regGet reg cid with
  | none => rfl
  | some chat =>
      by_cases hm : chat.mode ≠ Mode.bot
      · simp [hm]
      · simp only [hm, if_false, ite_false, if_neg]
        cases hesc : isEscalationText text with
        | true => simp [sendBotMessage_fst_outcome]
        | false =>
            simp only [Bool.false_eq_true, if_false, ite_false]
            cases getAutoReply text <;> simp [sendBotMessage_fst_outcome]

theorem listFindCongr {α : Type} (p q : α → Bool) (l : List α)
    (h : ∀ a ∈ l, p a = q a) : l.find? p = l.find? q := by
  induction l with
  | nil => rfl
  | cons a rest ih =>
      have ha := h a (by simp)
      cases hp : p a with
      | true => simp [List.find?, hp, ha.symm.trans hp]
      | false =>
          have hq : q a = false := ha.symm.trans hp
          simp [List.find?, hp, hq]
          exact ih (fun b hb => h b (by simp [hb]))

theorem getAutoReplyGo_eq_find (n : String) (l : List AutoReply) :
    getAutoReplyGo n l
      = (l.find? (fun r => r.keywords.any (fun kw => jsIncludes n kw))).map
          AutoReply.reply := by
  induction l with
  | nil => rfl
  | cons r rs ih =>
      cases hp : r.keywords.any (fun kw => jsIncludes n kw) with
      | true => simp [getAutoReplyGo, List.find?, hp]
      | false => simp [getAutoReplyGo, List.find?, hp, ih]

theorem autoReplies_keywords_lower :
    ∀ r ∈ autoReplies, ∀ kw ∈ r.keywords, jsToLower kw = kw := by decide

theorem anyIncludes_lower (n : String) (kws : List String)
    (h : ∀ kw ∈ kws, jsToLower kw = kw) :
    kws.any (fun kw => jsIncludes n kw)
      = kws.any (fun kw => jsIncludes n (jsToLower kw)) := by
  induction kws with
  | nil => rfl
  | cons kw rest ih =>
      simp only [List.any_cons]
      rw [h kw (by simp)]
      rw [ih (fun a ha => h a (by simp [ha]))]

theorem dispatchGo_sub (l : List RouteEntry) (h : HandlerId) (hm : h ∈ dispatchGo l) :
    h ∈ l.map RouteEntry.handler := by
  cases l with
  | nil => simp [dispatchGo] at hm
  | cons r rs =>
      simp [dispatchGo, callsNext] at hm
      simp [hm]

-- ===================================================================
-- Branch characterizations of the webhook and socket handlers
-- ===================================================================

theorem customerWebhook_noMsg (o sb : Bool) (st : ServerState) (rcid : String) (now : Nat) :
    customerWebhook o sb st none rcid now = (st, [], Resp.sendStatus 200) := rfl

theorem customerWebhook_noSb (o : Bool) (st : ServerState) (m : TgMessage) (rcid : String)
    (now : Nat) : customerWebhook o false st (some m) rcid now
      = (st, [], Resp.sendStatus 200) := rfl

theorem customerWebhook_forward (o : Bool) (st : ServerState) (m : TgMessage)
    (rcid : String) (now : Nat) (chat : ChatState)
    (hreg : regGet st.activeChats rcid = some chat)
    (hmode : chat.mode = Mode.human) (haid : chat.agentId.isSome = true) :
    customerWebhook o true st (some m) rcid now
      = ({ st with activeChats :=
            (storeMessage true
              (regSet st.activeChats rcid
                { chat with userFirstName := some (m.firstName.getD ""),
                            userLastName := some (m.lastName.getD ""),
                            telegramUserId := some m.fromId }) rcid
              { sender := Sender.user, text := m.text.getD "", timestamp := now }).1 },
         (storeMessage true
            (regSet st.activeChats rcid
              { chat with userFirstName := some (m.firstName.getD ""),
                          userLastName := some (m.lastName.getD ""),
                          telegramUserId := some m.fromId }) rcid
            { sender := Sender.user, text := m.text.getD "", timestamp := now }).2
           ++ [Effect.emit "message_from_user" rcid]
           ++ (match parseIntNat (chat.agentId.getD "") with
               | some a => tgSend o BotUrl.support (toString a)
                   ("💬 Message from <b>"
                     ++ jsTrim (m.firstName.getD "" ++ " " ++ m.lastName.getD "")
                     ++ "</b> (Chat: <code>" ++ rcid ++ "</code>):\n\n" ++ m.text.getD "")
               | none => []),
         Resp.sendStatus 200) := by
  unfold customerWebhook
  rcases hsm : storeMessage true
      (regSet st.activeChats rcid
        { chat with userFirstName := some (m.firstName.getD ""),
                    userLastName := some (m.lastName.getD ""),
                    telegramUserId := some m.fromId }) rcid
      { sender := Sender.user, text := m.text.getD "", timestamp := now } with ⟨r, e⟩
  simp only [hreg, hsm]
  simp [hmode, haid]

theorem customerWebhook_fresh (o : Bool) (st : ServerState) (m : TgMessage)
    (rcid : String) (now : Nat) (hreg : regGet st.activeChats rcid = none) :
    customerWebhook o true st (some m) rcid now
      = ({ st with activeChats :=
            (handleBotReply o true
              (storeMessage true
                (regSet st.activeChats rcid
                  { mode := Mode.bot, messages := [], source := Source.telegram,
                    userFirstName := some (m.firstName.getD ""),
                    userLastName := some (m.lastName.getD ""),
                    userId := some (toString m.fromId),
                    telegramUserId := some m.fromId }) rcid
                { sender := Sender.user, text := m.text.getD "", timestamp := now }).1
              rcid (m.text.getD "") Source.telegram now).1 },
         (storeMessage true
            (regSet st.activeChats rcid
              { mode := Mode.bot, messages := [], source := Source.telegram,
                userFirstName := some (m.firstName.getD ""),
                userLastName := some (m.lastName.getD ""),
                userId := some (toString m.fromId),
                telegramUserId := some m.fromId }) rcid
            { sender := Sender.user, text := m.text.getD "", timestamp := now }).2
           ++ [Effect.emit "message_from_user" rcid]
           ++ (handleBotReply o true
                (storeMessage true
                  (regSet st.activeChats rcid
                    { mode := Mode.bot, messages := [], source := Source.telegram,
                      userFirstName := some (m.firstName.getD ""),
                      userLastName := some (m.lastName.getD ""),
                      userId := some (toString m.fromId),
                      telegramUserId := some m.fromId }) rcid
                  { sender := Sender.user, text := m.text.getD "", timestamp := now }).1
                rcid (m.text.getD "") Source.telegram now).2,
         Resp.sendStatus 200) := by
  unfold customerWebhook
  rcases hsm : storeMessage true
      (regSet st.activeChats rcid
        { mode := Mode.bot, messages := [], source := Source.telegram,
          userFirstName := some (m.firstName.getD ""),
          userLastName := some (m.lastName.getD ""),
          userId := some (toString m.fromId),
          telegramUserId := some m.fromId }) rcid
      { sender := Sender.user, text := m.text.getD "", timestamp := now } with ⟨r, e⟩
  rcases hhb : handleBotReply o true r rcid (m.text.getD "") Source.telegram now with ⟨r2, e2⟩
  simp only [hreg, hsm, hhb]
  simp

theorem customerWebhook_existing_bot (o : Bool) (st : ServerState) (m : TgMessage)
    (rcid : String) (now : Nat) (chat : ChatState)
    (hreg : regGet st.activeChats rcid = some chat)
    (hcond : ¬(chat.mode = Mode.human ∧ chat.agentId.isSome = true)) :
    customerWebhook o true st (some m) rcid now
      = ({ st with activeChats :=
            (handleBotReply o true
              (storeMessage true
                (regSet st.activeChats rcid
                  { chat with userFirstName := some (m.firstName.getD ""),
                              userLastName := some (m.lastName.getD ""),
                              telegramUserId := some m.fromId }) rcid
                { sender := Sender.user, text := m.text.getD "", timestamp := now }).1
              rcid (m.text.getD "") Source.telegram now).1 },
         (storeMessage true
            (regSet st.activeChats rcid
              { chat with userFirstName := some (m.firstName.getD ""),
                          userLastName := some (m.lastName.getD ""),
                          telegramUserId := some m.fromId }) rcid
            { sender := Sender.user, text := m.text.getD "", timestamp := now }).2
           ++ [Effect.emit "message_from_user" rcid]
           ++ (handleBotReply o true
                (storeMessage true
                  (regSet st.activeChats rcid
                    { chat with userFirstName := some (m.firstName.getD ""),
                                userLastName := some (m.lastName.getD ""),
                                telegramUserId := some m.fromId }) rcid
                  { sender := Sender.user, text := m.text.getD "", timestamp := now }).1
                rcid (m.text.getD "") Source.telegram now).2,
         Resp.sendStatus 200) := by
  unfold customerWebhook
  rcases hsm : storeMessage true
      (regSet st.activeChats rcid
        { chat with userFirstName := some (m.firstName.getD ""),
                    userLastName := some (m.lastName.getD ""),
                    telegramUserId := some m.fromId }) rcid
      { sender := Sender.user, text := m.text.getD "", timestamp := now } with ⟨r, e⟩
  rcases hhb : handleBotReply o true r rcid (m.text.getD "") Source.telegram now with ⟨r2, e2⟩
  simp only [hreg, hsm, hhb]
  simp [hcond]

theorem supportWebhook_noMsg (o sb : Bool) (st : ServerState) (now : Nat) :
    supportWebhook o sb st none now = (st, [], Resp.sendStatus 200) := rfl

theorem supportWebhook_noSb (o : Bool) (st : ServerState) (m : TgMessage) (now : Nat) :
    supportWebhook o false st (some m) now = (st, [], Resp.sendStatus 200) := rfl

theorem supportWebhook_start (o : Bool) (st : ServerState) (m : TgMessage) (now : Nat)
    (ht : m.text.getD "" = "/start") :
    supportWebhook o true st (some m) now
      = (st, Effect.dbUpsertAgent m.fromId ::
          tgSend o BotUrl.support (toString m.fromId)
            ("👋 Welcome, support agent!\n\nCommands:\n/list - View active chats\n"
              ++ "/open <chat_id> - Open a chat\n/release - Release current chat\n"
              ++ "Type messages normally to reply to users."),
         Resp.sendStatus 200) := by
  unfold supportWebhook
  simp only [ht]
  simp

theorem supportWebhook_list (o : Bool) (st : ServerState) (m : TgMessage) (now : Nat)
    (ht : m.text.getD "" = "/list") :
    supportWebhook o true st (some m) now
      = (st, Effect.dbSelect "chat_sessions" ::
          tgSend o BotUrl.support (toString m.fromId) "(active chats listing)",
         Resp.sendStatus 200) := by
  unfold supportWebhook
  simp only [ht]
  simp

theorem supportWebhook_open_usage (o : Bool) (st : ServerState) (m : TgMessage) (now : Nat)
    (hstart : m.text.getD "" ≠ "/start") (hlist : m.text.getD "" ≠ "/list")
    (hopen : jsStartsWith (m.text.getD "") "/open" = true)
    (hjt : jsTruthy ((jsSplitSpace (m.text.getD ""))[1]?) = false) :
    supportWebhook o true st (some m) now
      = (st, tgSend o BotUrl.support (toString m.fromId) "Usage: /open <chat_id>",
         Resp.sendStatus 200) := by
  unfold supportWebhook
  simp [hstart, hlist, hopen, hjt]

theorem supportWebhook_open_missing (o : Bool) (st : ServerState) (m : TgMessage)
    (now : Nat) (cid : String)
    (hstart : m.text.getD "" ≠ "/start") (hlist : m.text.getD "" ≠ "/list")
    (hopen : jsStartsWith (m.text.getD "") "/open" = true)
    (hget : (jsSplitSpace (m.text.getD ""))[1]? = some cid) (hcid : ¬(cid = ""))
    (hreg : regGet st.activeChats cid = none) :
    supportWebhook o true st (some m) now
      = ({ activeChats := st.activeChats,
           agentChatMap := amSet st.agentChatMap m.fromId cid },
         [Effect.dbUpdateChatSession cid, Effect.emit "chat_mode_changed" cid]
           ++ tgSend o BotUrl.support (toString m.fromId)
                ("✅ Opened chat <code>" ++ cid
                  ++ "</code>\nYou\x27re now in human mode. Send messages normally."),
         Resp.sendStatus 200) := by
  unfold supportWebhook
  simp only [hget]
  simp [hstart, hlist, hopen, jsTruthy, hcid, hreg]

theorem supportWebhook_open_found (o : Bool) (st : ServerState) (m : TgMessage)
    (now : Nat) (cid : String) (chat : ChatState)
    (hstart : m.text.getD "" ≠ "/start") (hlist : m.text.getD "" ≠ "/list")
    (hopen : jsStartsWith (m.text.getD "") "/open" = true)
    (hget : (jsSplitSpace (m.text.getD ""))[1]? = some cid) (hcid : ¬(cid = ""))
    (hreg : regGet st.activeChats cid = some chat) :
    supportWebhook o true st (some m) now
      = ({ activeChats := (storeMessage true
             (regSet st.activeChats cid
               { chat with mode := Mode.human, agentId := some (toString m.fromId),
                           agentName := some (m.firstName.getD "Agent"),
                           requestingHuman := false }) cid
             { sender := Sender.system,
               text := (m.firstName.getD "Agent") ++ " connected",
               timestamp := now }).1,
           agentChatMap := amSet st.agentChatMap m.fromId cid },
         (storeMessage true
            (regSet st.activeChats cid
              { chat with mode := Mode.human, agentId := some (toString m.fromId),
                          agentName := some (m.firstName.getD "Agent"),
                          requestingHuman := false }) cid
            { sender := Sender.system,
              text := (m.firstName.getD "Agent") ++ " connected",
              timestamp := now }).2
           ++ [Effect.dbUpdateChatSession cid, Effect.emit "chat_mode_changed" cid]
           ++ tgSend o BotUrl.support (toString m.fromId)
                ("✅ Opened chat <code>" ++ cid
                  ++ "</code>\nYou\x27re now in human mode. Send messages normally."),
         Resp.sendStatus 200) := by
  unfold supportWebhook
  rcases hsm : storeMessage true
      (regSet st.activeChats cid
        { chat with mode := Mode.human, agentId := some (toString m.fromId),
                    agentName := some (m.firstName.getD "Agent"),
                    requestingHuman := false }) cid
      { sender := Sender.system, text := (m.firstName.getD "Agent") ++ " connected",
        timestamp := now } with ⟨r, e⟩
  simp only [hget]
  simp [hstart, hlist, hopen, jsTruthy, hcid, hreg, hsm]

theorem supportWebhook_release_none (o : Bool) (st : ServerState) (m : TgMessage)
    (now : Nat)
    (hstart : m.text.getD "" ≠ "/start") (hlist : m.text.getD "" ≠ "/list")
    (hopenF : jsStartsWith (m.text.getD "") "/open" = false)
    (hrel : m.text.getD "" = "/release")
    (ham : amGet st.agentChatMap m.fromId = none) :
    supportWebhook o true st (some m) now
      = (st, tgSend o BotUrl.support (toString m.fromId) "No chat is currently opened.",
         Resp.sendStatus 200) := by
  unfold supportWebhook
  simp [hstart, hlist, hopenF]
  simp [hrel, ham]

theorem supportWebhook_release_missing (o : Bool) (st : ServerState) (m : TgMessage)
    (now : Nat) (cur : String)
    (hstart : m.text.getD "" ≠ "/start") (hlist : m.text.getD "" ≠ "/list")
    (hopenF : jsStartsWith (m.text.getD "") "/open" = false)
    (hrel : m.text.getD "" = "/release")
    (ham : amGet st.agentChatMap m.fromId = some cur)
    (hreg : regGet st.activeChats cur = none) :
    supportWebhook o true st (some m) now
      = ({ activeChats := st.activeChats,
           agentChatMap := amDelete st.agentChatMap m.fromId },
         [Effect.dbUpdateChatSession cur, Effect.emit "chat_mode_changed" cur]
           ++ tgSend o BotUrl.support (toString m.fromId)
                ("🔓 Released chat <code>" ++ cur ++ "</code>"),
         Resp.sendStatus 200) := by
  unfold supportWebhook
  simp [hstart, hlist, hopenF]
  simp [hrel, ham, hreg]

theorem supportWebhook_release_found (o : Bool) (st : ServerState) (m : TgMessage)
    (now : Nat) (cur : String) (chat : ChatState)
    (hstart : m.text.getD "" ≠ "/start") (hlist : m.text.getD "" ≠ "/list")
    (hopenF : jsStartsWith (m.text.getD "") "/open" = false)
    (hrel : m.text.getD "" = "/release")
    (ham : amGet st.agentChatMap m.fromId = some cur)
    (hreg : regGet st.activeChats cur = some chat) :
    supportWebhook o true st (some m) now
      = ({ activeChats := regSet st.activeChats cur
             { chat with mode := Mode.bot, agentId := none, agentName := none,
                         requestingHuman := false },
           agentChatMap := amDelete st.agentChatMap m.fromId },
         [Effect.dbUpdateChatSession cur, Effect.emit "chat_mode_changed" cur]
           ++ tgSend o BotUrl.support (toString m.fromId)
                ("🔓 Released chat <code>" ++ cur ++ "</code>"),
         Resp.sendStatus 200) := by
  unfold supportWebhook
  simp [hstart, hlist, hopenF]
  simp [hrel, ham, hreg]

theorem supportWebhook_msg_hint (o : Bool) (st : ServerState) (m : TgMessage) (now : Nat)
    (hstart : m.text.getD "" ≠ "/start") (hlist : m.text.getD "" ≠ "/list")
    (hopenF : jsStartsWith (m.text.getD "") "/open" = false)
    (hrelF : m.text.getD "" ≠ "/release")
    (ham : amGet st.agentChatMap m.fromId = none) :
    supportWebhook o true st (some m) now
      = (st, tgSend o BotUrl.support (toString m.fromId)
          "Use /list to view chats or /open <id> to start chatting.",
         Resp.sendStatus 200) := by
  unfold supportWebhook
  simp [hstart, hlist, hopenF, hrelF, ham]

theorem supportWebhook_msg_notfound (o : Bool) (st : ServerState) (m : TgMessage)
    (now : Nat) (cur : String)
    (hstart : m.text.getD "" ≠ "/start") (hlist : m.text.getD "" ≠ "/list")
    (hopenF : jsStartsWith (m.text.getD "") "/open" = false)
    (hrelF : m.text.getD "" ≠ "/release")
    (ham : amGet st.agentChatMap m.fromId = some cur)
    (hreg : regGet st.activeChats cur = none) :
    supportWebhook o true st (some m) now
      = (st, tgSend o BotUrl.support (toString m.fromId) "Chat not found in active chats.",
         Resp.sendStatus 200) := by
  unfold supportWebhook
  simp [hstart, hlist, hopenF, hrelF, ham, hreg]

theorem supportWebhook_msg_found (o : Bool) (st : ServerState) (m : TgMessage)
    (now : Nat) (cur : String) (chat : ChatState)
    (hstart : m.text.getD "" ≠ "/start") (hlist : m.text.getD "" ≠ "/list")
    (hopenF : jsStartsWith (m.text.getD "") "/open" = false)
    (hrelF : m.text.getD "" ≠ "/release")
    (ham : amGet st.agentChatMap m.fromId = some cur)
    (hreg : regGet st.activeChats cur = some chat) :
    supportWebhook o true st (some m) now
      = ({ st with activeChats := (storeMessage true st.activeChats cur
            { sender := Sender.agent, text := m.text.getD "", timestamp := now,
              agentId := some (toString m.fromId),
              agentName := some (m.firstName.getD "Agent") }).1 },
         (storeMessage true st.activeChats cur
            { sender := Sender.agent, text := m.text.getD "", timestamp := now,
              agentId := some (toString m.fromId),
              agentName := some (m.firstName.getD "Agent") }).2
           ++ (match chat.telegramUserId with
               | some tuid => tgSend o BotUrl.customer (toString tuid) (m.text.getD "")
               | none => [])
           ++ [Effect.emit "message_from_agent" cur],
         Resp.sendStatus 200) := by
  unfold supportWebhook
  rcases hsm : storeMessage true st.activeChats cur
      { sender := Sender.agent, text := m.text.getD "", timestamp := now,
        agentId := some (toString m.fromId),
        agentName := some (m.firstName.getD "Agent") } with ⟨r, e⟩
  simp only [ham, hreg, hsm]
  simp [hstart, hlist, hopenF, hrelF]

theorem socketUserMessage_fresh (o sb : Bool) (st : ServerState) (cid text : String)
    (ufn uln uid : Option String) (now : Nat)
    (hreg : regGet st.activeChats cid = none) :
    socketUserMessage o sb st cid text ufn uln uid now
      = ({ st with activeChats :=
            (handleBotReply o sb
              (storeMessage sb
                (regSet st.activeChats cid
                  { mode := Mode.bot, messages := [], source := Source.web,
                    userFirstName := ufn, userLastName := uln, userId := uid }) cid
                { sender := Sender.user, text := text, timestamp := now }).1
              cid text Source.web now).1 },
         Effect.emit "chat_mode_changed" cid ::
           ((storeMessage sb
              (regSet st.activeChats cid
                { mode := Mode.bot, messages := [], source := Source.web,
                  userFirstName := ufn, userLastName := uln, userId := uid }) cid
              { sender := Sender.user, text := text, timestamp := now }).2
             ++ [Effect.emit "message_from_user" cid]
             ++ (handleBotReply o sb
                  (storeMessage sb
                    (regSet st.activeChats cid
                      { mode := Mode.bot, messages := [], source := Source.web,
                        userFirstName := ufn, userLastName := uln, userId := uid }) cid
                    { sender := Sender.user, text := text, timestamp := now }).1
                  cid text Source.web now).2)) := by
  unfold socketUserMessage
  rcases hsm : storeMessage sb
      (regSet st.activeChats cid
        { mode := Mode.bot, messages := [], source := Source.web,
          userFirstName := ufn, userLastName := uln, userId := uid }) cid
      { sender := Sender.user, text := text, timestamp := now } with ⟨r, e⟩
  rcases hhb : handleBotReply o sb r cid text Source.web now with ⟨r2, e2⟩
  simp only [hreg, hsm, hhb]
  simp

theorem socketUserMessage_existing_human (o sb : Bool) (st : ServerState)
    (cid text : String) (ufn uln uid : Option String) (now : Nat) (chat : ChatState)
    (hreg : regGet st.activeChats cid = some chat) (hmode : chat.mode = Mode.human) :
    socketUserMessage o sb st cid text ufn uln uid now
      = ({ st with activeChats :=
            (storeMessage sb
              (regSet st.activeChats cid
                { chat with
                    userFirstName := if jsTruthy ufn then ufn else chat.userFirstName,
                    userLastName := if jsTruthy uln then uln else chat.userLastName,
                    userId := if jsTruthy uid then uid else chat.userId }) cid
              { sender := Sender.user, text := text, timestamp := now }).1 },
         (storeMessage sb
            (regSet st.activeChats cid
              { chat with
                  userFirstName := if jsTruthy ufn then ufn else chat.userFirstName,
                  userLastName := if jsTruthy uln then uln else chat.userLastName,
                  userId := if jsTruthy uid then uid else chat.userId }) cid
            { sender := Sender.user, text := text, timestamp := now }).2
           ++ [Effect.emit "message_from_user" cid]) := by
  unfold socketUserMessage
  rcases hsm : storeMessage sb
      (regSet st.activeChats cid
        { chat with
            userFirstName := if jsTruthy ufn then ufn else chat.userFirstName,
            userLastName := if jsTruthy uln then uln else chat.userLastName,
            userId := if jsTruthy uid then uid else chat.userId }) cid
      { sender := Sender.user, text := text, timestamp := now } with ⟨r, e⟩
  simp only [hreg, hsm]
  simp [hmode]

theorem socketUserMessage_existing_bot (o sb : Bool) (st : ServerState)
    (cid text : String) (ufn uln uid : Option String) (now : Nat) (chat : ChatState)
    (hreg : regGet st.activeChats cid = some chat) (hmode : chat.mode = Mode.bot) :
    socketUserMessage o sb st cid text ufn uln uid now
      = ({ st with activeChats :=
            (handleBotReply o sb
              (storeMessage sb
                (regSet st.activeChats cid
                  { chat with
                      userFirstName := if jsTruthy ufn then ufn else chat.userFirstName,
                      userLastName := if jsTruthy uln then uln else chat.userLastName,
                      userId := if jsTruthy uid then uid else chat.userId }) cid
                { sender := Sender.user, text := text, timestamp := now }).1
              cid text Source.web now).1 },
         (storeMessage sb
            (regSet st.activeChats cid
              { chat with
                  userFirstName := if jsTruthy ufn then ufn else chat.userFirstName,
                  userLastName := if jsTruthy uln then uln else chat.userLastName,
                  userId := if jsTruthy uid then uid else chat.userId }) cid
            { sender := Sender.user, text := text, timestamp := now }).2
           ++ [Effect.emit "message_from_user" cid]
           ++ (handleBotReply o sb
                (storeMessage sb
                  (regSet st.activeChats cid
                    { chat with
                        userFirstName := if jsTruthy ufn then ufn else chat.userFirstName,
                        userLastName := if jsTruthy uln then uln else chat.userLastName,
                        userId := if jsTruthy uid then uid else chat.userId }) cid
                  { sender := Sender.user, text := text, timestamp := now }).1
                cid text Source.web now).2) := by
  unfold socketUserMessage
  rcases hsm : storeMessage sb
      (regSet st.activeChats cid
        { chat with
            userFirstName := if jsTruthy ufn then ufn else chat.userFirstName,
            userLastName := if jsTruthy uln then uln else chat.userLastName,
            userId := if jsTruthy uid then uid else chat.userId }) cid
      { sender := Sender.user, text := text, timestamp := now } with ⟨r, e⟩
  rcases hhb : handleBotReply o sb r cid text Source.web now with ⟨r2, e2⟩
  simp only [hreg, hsm, hhb]
  simp [hmode]

-- ===================================================================
-- Claim theorems
-- ===================================================================

/-- Claim C6: the keyword auto-reply function is deterministic and
order-stable.  For every input it returns the reply of the first rule in
list order with a keyword that is a case-insensitive substring of the
text; on the rule list of the source, the input hello, can you help
matches the greeting rule (not the support rule); and when no rule
matches and no escalation trigger fires, handleBotReply produces the
fixed fallback reply. -/
theorem claim_C6 :
    (∀ text : String,
       getAutoReply text
         = (autoReplies.find? (fun r =>
             r.keywords.any (fun kw =>
               jsIncludes (jsToLower text) (jsToLower kw)))).map AutoReply.reply)
    ∧ getAutoReply "hello, can you help"
        = some "👋 Hi there! I’m your virtual assistant. How can I help today?"
    ∧ (∀ (o sb : Bool) (reg : List (String × ChatState)) (cid text : String)
         (src : Source) (now : Nat) (chat : ChatState),
         regGet reg cid = some chat → chat.mode = Mode.bot →
         isEscalationText text = false → getAutoReply text = none →
         handleBotReply o sb reg cid text src now
           = sendBotMessage o sb reg cid fallbackReply src now) := by
  refine ⟨?_, by decide, ?_⟩
  · intro text
    unfold getAutoReply
    rw [getAutoReplyGo_eq_find]
    have hfind := listFindCongr
      (fun r => r.keywords.any (fun kw => jsIncludes (jsToLower text) kw))
      (fun r => r.keywords.any (fun kw => jsIncludes (jsToLower text) (jsToLower kw)))
      autoReplies
      (fun r hr => anyIncludes_lower (jsToLower text) r.keywords
        (autoReplies_keywords_lower r hr))
    rw [hfind]
  · intro o sb reg cid text src now chat hg hm hesc hga
    rw [handleBotReply_eq, hg]
    simp [hm, hesc, hga]

/-- Claim C6 witness: a concrete bot-mode session and an input matching
no rule and no escalation trigger, on which handleBotReply produces the
fallback reply. -/
theorem claim_C6_witness :
    handleBotReply true true [("c6w", demoWebChat)] "c6w" "qqq" Source.web 4
      = sendBotMessage true true [("c6w", demoWebChat)] "c6w" fallbackReply Source.web 4 :=
  claim_C6.2.2 true true [("c6w", demoWebChat)] "c6w" "qqq" Source.web 4 demoWebChat
    rfl rfl (by decide) (by decide)

/-- Claim C5 counterexample: the lower-cased input please agent now
contains the trigger word agent as a substring, yet handleBotReply does
not set requestingHuman and emits no escalation notification, because the
code compares the whole normalized text with agent by equality. -/
theorem claim_C5_counterexample :
    jsIncludes (jsToLower "please agent now") "agent" = true
    ∧ ((regGet (handleBotReply true true [("c5", demoWebChat)] "c5" "please agent now"
          Source.web 3).1 "c5").map ChatState.requestingHuman = some false)
    ∧ (Effect.emit "human_support_requested" "c5"
        ∉ (handleBotReply true true [("c5", demoWebChat)] "c5" "please agent now"
            Source.web 3).2) := by
  refine ⟨by decide, by decide, by decide⟩

/-- Claim C5 amended: escalation detection lower-cases the text; the
phrases talk to human, speak to human and human support match as
substrings, while agent matches only when the entire normalized text
equals agent.  With that trigger set, a bot-mode session gets
requestingHuman set (staying set if it already was) and the notification
emitted exactly when a trigger fires. -/
theorem claim_C5_amended :
    ∀ (o sb : Bool) (reg : List (String × ChatState)) (cid text : String) (src : Source)
      (now : Nat) (chat : ChatState),
      regGet reg cid = some chat → chat.mode = Mode.bot →
      ((regGet (handleBotReply o sb reg cid text src now).1 cid).map ChatState.requestingHuman
         = some (chat.requestingHuman || isEscalationText text))
      ∧ ((Effect.emit "human_support_requested" cid
            ∈ (handleBotReply o sb reg cid text src now).2) ↔ isEscalationText text = true) := by
  intro o sb reg cid text src now chat hg hm
  rw [handleBotReply_eq, hg]
  simp only [hm, ne_eq, not_true_eq_false, if_false, ite_false, if_neg, not_false_eq_true]
  cases hesc : isEscalationText text with
  | true =>
      simp only [if_true, ite_true, Bool.or_true]
      constructor
      · rw [rhAt_sendBotMessage, regGet_regSet]
        simp
      · simp
  | false =>
      simp only [Bool.false_eq_true, if_false, ite_false, Bool.or_false]
      cases hga : getAutoReply text with
      | some reply =>
          constructor
          · rw [rhAt_sendBotMessage, hg]
            simp
          · simp [emit_mem_sendBotMessage]
      | none =>
          constructor
          · rw [rhAt_sendBotMessage, hg]
            simp
          · simp [emit_mem_sendBotMessage]

/-- Claim C5 witness: the case-insensitivity example of the spec, I need
HUMAN support now, fires the escalation trigger on a bot-mode session. -/
theorem claim_C5_amended_witness :
    ((regGet (handleBotReply true true [("c5w", demoWebChat)] "c5w"
        "I need HUMAN support now" Source.web 3).1 "c5w").map ChatState.requestingHuman
      = some (demoWebChat.requestingHuman || isEscalationText "I need HUMAN support now"))
    ∧ ((Effect.emit "human_support_requested" "c5w"
          ∈ (handleBotReply true true [("c5w", demoWebChat)] "c5w"
              "I need HUMAN support now" Source.web 3).2)
        ↔ isEscalationText "I need HUMAN support now" = true) :=
  claim_C5_amended true true [("c5w", demoWebChat)] "c5w" "I need HUMAN support now"
    Source.web 3 demoWebChat rfl rfl

/-- Claim C7: a failed outbound telegram delivery is caught inside tgSend,
so the handlers behave identically apart from an extra failure log entry:
the resulting server state is the same as under successful delivery, the
number of delivery attempts is the same (no retry), the effect traces
agree once failure logs are removed, and the bot message is still
appended to the session log even when its delivery failed. -/
theorem claim_C7 :
    ∀ (o sb : Bool) (reg : List (String × ChatState)) (cid text : String) (src : Source)
      (now : Nat) (st : ServerState) (chatIdB messageB agentIdB agentNameB : Option String)
      (msg : Option TgMessage) (rcid : String),
      ((sendBotMessage o sb reg cid text src now).1
         = (sendBotMessage true sb reg cid text src now).1)
      ∧ ((sendBotMessage o sb reg cid text src now).2.countP (fun e => isSendAttempt e)
         = (sendBotMessage true sb reg cid text src now).2.countP (fun e => isSendAttempt e))
      ∧ ((sendBotMessage o sb reg cid text src now).2.filter (fun e => !(isFailLog e))
         = (sendBotMessage true sb reg cid text src now).2.filter (fun e => !(isFailLog e)))
      ∧ (∀ chat, regGet reg cid = some chat →
           regGet (sendBotMessage o sb reg cid text src now).1 cid
             = some { chat with messages := chat.messages
                 ++ [{ sender := Sender.bot, text := text, timestamp := now }] })
      ∧ ((postSend o sb st chatIdB messageB agentIdB agentNameB now).1
          = (postSend true sb st chatIdB messageB agentIdB agentNameB now).1)
      ∧ ((postSend o sb st chatIdB messageB agentIdB agentNameB now).2.2
          = (postSend true sb st chatIdB messageB agentIdB agentNameB now).2.2)
      ∧ ((customerWebhook o sb st msg rcid now).1
          = (customerWebhook true sb st msg rcid now).1)
      ∧ ((supportWebhook o sb st msg now).1
          = (supportWebhook true sb st msg now).1) := by
  intro o sb reg cid text src now st chatIdB messageB agentIdB agentNameB msg rcid
  rcases hsm : storeMessage sb reg cid
      { sender := Sender.bot, text := text, timestamp := now } with ⟨reg1, effs1⟩
  refine ⟨sendBotMessage_fst_outcome o sb reg cid text src now, ?_, ?_, ?_, ?_, ?_, ?_, ?_⟩
  · unfold sendBotMessage
    simp only [hsm, List.countP_append]
    cases src with
    | web => rfl
    | telegram =>
        cases hc : regGet reg cid with
        | none => rfl
        | some c =>
            cases htu : c.telegramUserId with
            | none => simp [htu]
            | some tuid => cases o <;> simp [htu, tgSend, List.countP_cons, isSendAttempt]
  · unfold sendBotMessage
    simp only [hsm, List.filter_append]
    cases src with
    | web => rfl
    | telegram =>
        cases hc : regGet reg cid with
        | none => rfl
        | some c =>
            cases htu : c.telegramUserId with
            | none => simp [htu]
            | some tuid => cases o <;> simp [htu, tgSend, isFailLog]
  · intro chat hg
    rw [sendBotMessage_fst]
    exact regGet_storeMessage_self sb reg cid _ chat hg
  · unfold postSend
    by_cases hv : (!(jsTruthy chatIdB) || !(jsTruthy messageB)) = true
    · simp only [hv, if_true, ite_true]
    · simp only [hv, Bool.not_eq_true, if_false, ite_false, if_neg]
  · unfold postSend
    by_cases hv : (!(jsTruthy chatIdB) || !(jsTruthy messageB)) = true
    · simp only [hv, if_true, ite_true]
    · simp only [hv, Bool.not_eq_true, if_false, ite_false, if_neg]
  · cases msg with
    | none => rw [customerWebhook_noMsg, customerWebhook_noMsg]
    | some m =>
        cases sb with
        | false => rw [customerWebhook_noSb, customerWebhook_noSb]
        | true =>
            cases hreg : regGet st.activeChats rcid with
            | none =>
                rw [customerWebhook_fresh o st m rcid now hreg,
                    customerWebhook_fresh true st m rcid now hreg]
                simp only [handleBotReply_fst_outcome]
            | some chat =>
                by_cases hcond : chat.mode = Mode.human ∧ chat.agentId.isSome = true
                · rw [customerWebhook_forward o st m rcid now chat hreg hcond.1 hcond.2,
                      customerWebhook_forward true st m rcid now chat hreg hcond.1 hcond.2]
                · rw [customerWebhook_existing_bot o st m rcid now chat hreg hcond,
                      customerWebhook_existing_bot true st m rcid now chat hreg hcond]
                  simp only [handleBotReply_fst_outcome]
  · cases msg with
    | none => rw [supportWebhook_noMsg, supportWebhook_noMsg]
    | some m =>
        cases sb with
        | false => rw [supportWebhook_noSb, supportWebhook_noSb]
        | true =>
            by_cases h1 : m.text.getD "" = "/start"
            · rw [supportWebhook_start o st m now h1, supportWebhook_start true st m now h1]
            · by_cases h2 : m.text.getD "" = "/list"
              · rw [supportWebhook_list o st m now h2, supportWebhook_list true st m now h2]
              · cases h3 : jsStartsWith (m.text.getD "") "/open" with
                | true =>
                    cases hget : (jsSplitSpace (m.text.getD ""))[1]? with
                    | none =>
                        have hjt : jsTruthy ((jsSplitSpace (m.text.getD ""))[1]?) = false := by
                          rw [hget]; rfl
                        rw [supportWebhook_open_usage o st m now h1 h2 h3 hjt,
                            supportWebhook_open_usage true st m now h1 h2 h3 hjt]
                    | some cid2 =>
                        by_cases hcid : cid2 = ""
                        · have hjt : jsTruthy ((jsSplitSpace (m.text.getD ""))[1]?) = false := by
                            rw [hget]; simp [jsTruthy, hcid]
                          rw [supportWebhook_open_usage o st m now h1 h2 h3 hjt,
                              supportWebhook_open_usage true st m now h1 h2 h3 hjt]
                        · cases hreg : regGet st.activeChats cid2 with
                          | none =>
                              rw [supportWebhook_open_missing o st m now cid2 h1 h2 h3 hget hcid hreg,
                                  supportWebhook_open_missing true st m now cid2 h1 h2 h3 hget hcid hreg]
                          | some chat =>
                              rw [supportWebhook_open_found o st m now cid2 chat h1 h2 h3 hget hcid hreg,
                                  supportWebhook_open_found true st m now cid2 chat h1 h2 h3 hget hcid hreg]
                | false =>
                    by_cases h4 : m.text.getD "" = "/release"
                    · cases ham : amGet st.agentChatMap m.fromId with
                      | none =>
                          rw [supportWebhook_release_none o st m now h1 h2 h3 h4 ham,
                              supportWebhook_release_none true st m now h1 h2 h3 h4 ham]
                      | some cur =>
                          cases hreg2 : regGet st.activeChats cur with
                          | none =>
                              rw [supportWebhook_release_missing o st m now cur h1 h2 h3 h4 ham hreg2,
                                  supportWebhook_release_missing true st m now cur h1 h2 h3 h4 ham hreg2]
                          | some chat =>
                              rw [supportWebhook_release_found o st m now cur chat h1 h2 h3 h4 ham hreg2,
                                  supportWebhook_release_found true st m now cur chat h1 h2 h3 h4 ham hreg2]
                    · cases ham : amGet st.agentChatMap m.fromId with
                      | none =>
                          rw [supportWebhook_msg_hint o st m now h1 h2 h3 h4 ham,
                              supportWebhook_msg_hint true st m now h1 h2 h3 h4 ham]
                      | some cur =>
                          cases hreg2 : regGet st.activeChats cur with
                          | none =>
                              rw [supportWebhook_msg_notfound o st m now cur h1 h2 h3 h4 ham hreg2,
                                  supportWebhook_msg_notfound true st m now cur h1 h2 h3 h4 ham hreg2]
                          | some chat =>
                              rw [supportWebhook_msg_found o st m now cur chat h1 h2 h3 h4 ham hreg2,
                                  supportWebhook_msg_found true st m now cur chat h1 h2 h3 h4 ham hreg2]

/-- Claim C7 witness: a concrete failed delivery on a telegram-origin
session still appends the bot message to the log. -/
theorem claim_C7_witness :
    regGet (sendBotMessage false true [("c7", demoHumanTgChat)] "c7" "yo"
        Source.telegram 2).1 "c7"
      = some { demoHumanTgChat with messages := demoHumanTgChat.messages
          ++ [{ sender := Sender.bot, text := "yo", timestamp := 2 }] } :=
  (claim_C7 false true [("c7", demoHumanTgChat)] "c7" "yo" Source.telegram 2
      { activeChats := [], agentChatMap := [] } none none none none none "").2.2.2.1
    demoHumanTgChat rfl

/-- Claim C3 counterexample: a concrete takeover then release on a fresh
bot-mode session appends exactly one SYSTEM message (the join), not two;
the release path of the source appends no departure message. -/
theorem claim_C3_counterexample :
    ((msgsAt c3State2 "c3").filter (fun mm => mm.sender == Sender.system)).length = 1
    ∧ ¬(((msgsAt c3State2 "c3").filter (fun mm => mm.sender == Sender.system)).length = 2)
    ∧ (regGet c3State2.activeChats "c3").map (fun c => (c.mode, c.agentId, c.agentName))
        = some (Mode.bot, none, none) := by
  refine ⟨by decide, by decide, by decide⟩

/-- Claim C3 amended: POST /takeover followed by POST /release on a
bot-mode session returns the mode to bot and clears the agent fields, and
exactly one SYSTEM message is appended across the two commands: the join
message written by the takeover.  The release appends no SYSTEM message. -/
theorem claim_C3 :
    ∀ (sb : Bool) (st : ServerState) (cid aid aname : String) (now : Nat) (chat : ChatState),
      regGet st.activeChats cid = some chat → chat.mode = Mode.bot →
      cid ≠ "" → aid ≠ "" → aname ≠ "" →
      ((regGet ((postRelease sb (postTakeover sb st (some cid) (some aid) (some aname) now).1
           (some cid)).1).activeChats cid).map
         (fun c => (c.mode, c.agentId, c.agentName, c.messages))
        = some (Mode.bot, none, none, chat.messages
            ++ [{ sender := Sender.system, text := aname ++ " connected", timestamp := now }]))
      ∧ msgsAt (postTakeover sb st (some cid) (some aid) (some aname) now).1 cid
          = msgsAt ((postRelease sb (postTakeover sb st (some cid) (some aid) (some aname) now).1
              (some cid)).1) cid := by
  intro sb st cid aid aname now chat hg hm hcid haid haname
  have hjt1 : jsTruthy (some cid) = true := by simp [jsTruthy, hcid]
  have hjt3 : jsTruthy (some aname) = true := by simp [jsTruthy, haname]
  have hg1 : regGet (regSet st.activeChats cid
      { chat with mode := Mode.human, agentId := some aid,
                  agentName := some aname, requestingHuman := false }) cid
      = some { chat with mode := Mode.human, agentId := some aid,
                         agentName := some aname, requestingHuman := false } := by
    rw [regGet_regSet]; simp
  have hT : regGet (postTakeover sb st (some cid) (some aid) (some aname) now).1.activeChats cid
      = some { chat with mode := Mode.human, agentId := some aid,
                         agentName := some aname, requestingHuman := false,
                         messages := chat.messages
                           ++ [{ sender := Sender.system, text := aname ++ " connected",
                                 timestamp := now }] } := by
    unfold postTakeover
    rcases hsm : storeMessage sb
        (regSet st.activeChats cid
          { chat with mode := Mode.human, agentId := some aid,
                      agentName := some aname, requestingHuman := false }) cid
        { sender := Sender.system, text := aname ++ " connected", timestamp := now }
      with ⟨r, e⟩
    have hr : r = regSet
        (regSet st.activeChats cid
          { chat with mode := Mode.human, agentId := some aid,
                      agentName := some aname, requestingHuman := false }) cid
        { chat with mode := Mode.human, agentId := some aid,
                    agentName := some aname, requestingHuman := false,
                    messages := chat.messages
                      ++ [{ sender := Sender.system, text := aname ++ " connected",
                            timestamp := now }] } := by
      have := storeMessage_fst_some sb
          (regSet st.activeChats cid
            { chat with mode := Mode.human, agentId := some aid,
                        agentName := some aname, requestingHuman := false }) cid
          { sender := Sender.system, text := aname ++ " connected", timestamp := now }
          _ hg1
      rw [hsm] at this
      simpa using this
    simp [jsTruthy, hcid, haid, haname, hg, hm, hsm, hr, regGet_regSet]
  constructor
  · unfold postRelease
    simp [hjt1, hT, regGet_regSet]
  · unfold postRelease
    simp [msgsAt, hjt1, hT, regGet_regSet]

/-- Claim C3 witness: the concrete run of the counterexample satisfies
the amended statement. -/
theorem claim_C3_witness :
    ((regGet ((postRelease true (postTakeover true c3State0 (some "c3") (some "a1")
         (some "Alice") 5).1 (some "c3")).1).activeChats "c3").map
       (fun c => (c.mode, c.agentId, c.agentName, c.messages))
      = some (Mode.bot, none, none, demoWebChat.messages
          ++ [{ sender := Sender.system, text := "Alice" ++ " connected", timestamp := 5 }]))
    ∧ msgsAt (postTakeover true c3State0 (some "c3") (some "a1") (some "Alice") 5).1 "c3"
        = msgsAt ((postRelease true (postTakeover true c3State0 (some "c3") (some "a1")
            (some "Alice") 5).1 (some "c3")).1) "c3" :=
  claim_C3 true c3State0 "c3" "a1" "Alice" 5 demoWebChat rfl rfl
    (by decide) (by decide) (by decide)

/-- Claim C4 counterexample: a Telegram /open naming a chat id absent from
the registry still records the agent-to-chat assignment, issues a session
database update, and answers with the success acknowledgment; no error is
reported to the agent. -/
theorem claim_C4_counterexample :
    supportWebhook true true { activeChats := [], agentChatMap := [] }
        (some { fromId := 7, text := some "/open chatX", firstName := some "Bob" }) 0
      = ({ activeChats := [], agentChatMap := [(7, "chatX")] },
         [Effect.dbUpdateChatSession "chatX", Effect.emit "chat_mode_changed" "chatX",
          Effect.tgSendAttempt BotUrl.support "7"
            ("✅ Opened chat <code>chatX</code>\nYou\x27re now in human mode. Send messages normally.")],
         Resp.sendStatus 200)
    ∧ ([(7, "chatX")] : List (Nat × String)) ≠ [] := by
  refine ⟨by decide, by decide⟩

/-- Claim C4 amended: a Telegram /open whose chat id is not in the
registry leaves every session untouched but still records the
agent-to-chat assignment, issues a session database update and sends the
success acknowledgment instead of an error; an agent free-text message
whose open chat is missing from the registry reports Chat not found in
active chats and changes no state. -/
theorem claim_C4 :
    ∀ (o : Bool) (st : ServerState) (m : TgMessage) (now : Nat) (cid cur : String),
      (m.text.getD "" ≠ "/start" → m.text.getD "" ≠ "/list" →
        jsStartsWith (m.text.getD "") "/open" = true →
        (jsSplitSpace (m.text.getD ""))[1]? = some cid → ¬(cid = "") →
        regGet st.activeChats cid = none →
        supportWebhook o true st (some m) now
          = ({ activeChats := st.activeChats,
               agentChatMap := amSet st.agentChatMap m.fromId cid },
             [Effect.dbUpdateChatSession cid, Effect.emit "chat_mode_changed" cid]
               ++ tgSend o BotUrl.support (toString m.fromId)
                    ("✅ Opened chat <code>" ++ cid
                      ++ "</code>\nYou\x27re now in human mode. Send messages normally."),
             Resp.sendStatus 200))
      ∧ (m.text.getD "" ≠ "/start" → m.text.getD "" ≠ "/list" →
          jsStartsWith (m.text.getD "") "/open" = false → m.text.getD "" ≠ "/release" →
          amGet st.agentChatMap m.fromId = some cur →
          regGet st.activeChats cur = none →
          supportWebhook o true st (some m) now
            = (st, tgSend o BotUrl.support (toString m.fromId)
                "Chat not found in active chats.",
               Resp.sendStatus 200)) :=
  fun o st m now cid cur =>
    ⟨fun h1 h2 h3 h4 h5 h6 => supportWebhook_open_missing o st m now cid h1 h2 h3 h4 h5 h6,
     fun h1 h2 h3 h4 h5 h6 => supportWebhook_msg_notfound o st m now cur h1 h2 h3 h4 h5 h6⟩

/-- Claim C4 witness: concrete instances of both branches. -/
theorem claim_C4_witness :
    (supportWebhook true true { activeChats := [], agentChatMap := [] }
        (some { fromId := 8, text := some "/open cY", firstName := some "Eve" }) 1
      = ({ activeChats := [], agentChatMap := amSet [] 8 "cY" },
         [Effect.dbUpdateChatSession "cY", Effect.emit "chat_mode_changed" "cY"]
           ++ tgSend true BotUrl.support (toString (8 : Nat))
                ("✅ Opened chat <code>" ++ "cY"
                  ++ "</code>\nYou\x27re now in human mode. Send messages normally."),
         Resp.sendStatus 200))
    ∧ (supportWebhook true true { activeChats := [], agentChatMap := [(9, "gone")] }
        (some { fromId := 9, text := some "hi there", firstName := some "Eve" }) 1
      = ({ activeChats := [], agentChatMap := [(9, "gone")] },
         tgSend true BotUrl.support (toString (9 : Nat)) "Chat not found in active chats.",
         Resp.sendStatus 200)) :=
  ⟨(claim_C4 true { activeChats := [], agentChatMap := [] }
      { fromId := 8, text := some "/open cY", firstName := some "Eve" } 1 "cY" "x").1
      (by decide) (by decide) (by decide) (by decide) (by decide) rfl,
   (claim_C4 true { activeChats := [], agentChatMap := [(9, "gone")] }
      { fromId := 9, text := some "hi there", firstName := some "Eve" } 1 "x" "gone").2
      (by decide) (by decide) (by decide) (by decide) (by decide) rfl⟩

/-- Claim C8: the first inbound message bearing an unseen chat identifier
creates a session with mode bot and appends exactly that key to the
registry; a message on a known identifier leaves the key set unchanged
(no new session) and does not change the session mode.  Shown for the
customer webhook (with supabase configured, without which that handler
stores nothing) and for the socket user_message handler. -/
theorem claim_C8 :
    ∀ (o sb : Bool) (st : ServerState) (m : TgMessage) (rcid cid text : String)
      (ufn uln uid : Option String) (now : Nat),
      (regGet st.activeChats rcid = none →
         ((regGet (customerWebhook o true st (some m) rcid now).1.activeChats rcid).map
             ChatState.mode = some Mode.bot)
         ∧ regKeys (customerWebhook o true st (some m) rcid now).1.activeChats
             = regKeys st.activeChats ++ [rcid])
      ∧ (∀ chat, regGet st.activeChats rcid = some chat →
           ((regGet (customerWebhook o true st (some m) rcid now).1.activeChats rcid).map
               ChatState.mode = some chat.mode)
           ∧ regKeys (customerWebhook o true st (some m) rcid now).1.activeChats
               = regKeys st.activeChats)
      ∧ (regGet st.activeChats cid = none →
           ((regGet (socketUserMessage o sb st cid text ufn uln uid now).1.activeChats cid).map
               ChatState.mode = some Mode.bot)
           ∧ regKeys (socketUserMessage o sb st cid text ufn uln uid now).1.activeChats
               = regKeys st.activeChats ++ [cid])
      ∧ (∀ chat, regGet st.activeChats cid = some chat →
           ((regGet (socketUserMessage o sb st cid text ufn uln uid now).1.activeChats cid).map
               ChatState.mode = some chat.mode)
           ∧ regKeys (socketUserMessage o sb st cid text ufn uln uid now).1.activeChats
               = regKeys st.activeChats) := by
  intro o sb st m rcid cid text ufn uln uid now
  refine ⟨?_, ?_, ?_, ?_⟩
  · intro hreg
    rw [customerWebhook_fresh o st m rcid now hreg]
    constructor
    · rw [modeAt_handleBotReply, modeAt_storeMessage, regGet_regSet]
      simp
    · rw [regKeys_handleBotReply, regKeys_storeMessage, regKeys_regSet_new _ _ _ hreg]
  · intro chat hreg
    by_cases hcond : chat.mode = Mode.human ∧ chat.agentId.isSome = true
    · rw [customerWebhook_forward o st m rcid now chat hreg hcond.1 hcond.2]
      constructor
      · rw [modeAt_storeMessage, regGet_regSet]
        simp
      · rw [regKeys_storeMessage]
        exact regKeys_regSet_existing _ _ _ (by simp [hreg])
    · rw [customerWebhook_existing_bot o st m rcid now chat hreg hcond]
      constructor
      · rw [modeAt_handleBotReply, modeAt_storeMessage, regGet_regSet]
        simp
      · rw [regKeys_handleBotReply, regKeys_storeMessage]
        exact regKeys_regSet_existing _ _ _ (by simp [hreg])
  · intro hreg
    rw [socketUserMessage_fresh o sb st cid text ufn uln uid now hreg]
    constructor
    · rw [modeAt_handleBotReply, modeAt_storeMessage, regGet_regSet]
      simp
    · rw [regKeys_handleBotReply, regKeys_storeMessage, regKeys_regSet_new _ _ _ hreg]
  · intro chat hreg
    cases hmode : chat.mode with
    | human =>
        rw [socketUserMessage_existing_human o sb st cid text ufn uln uid now chat hreg hmode]
        constructor
        · rw [modeAt_storeMessage, regGet_regSet]
          simp [hmode]
        · rw [regKeys_storeMessage]
          exact regKeys_regSet_existing _ _ _ (by simp [hreg])
    | bot =>
        rw [socketUserMessage_existing_bot o sb st cid text ufn uln uid now chat hreg hmode]
        constructor
        · rw [modeAt_handleBotReply, modeAt_storeMessage, regGet_regSet]
          simp [hmode]
        · rw [regKeys_handleBotReply, regKeys_storeMessage]
          exact regKeys_regSet_existing _ _ _ (by simp [hreg])

/-- Claim C8 witness: a fresh web chat id is created with mode bot by the
socket handler, and a second message on the same id neither creates a new
session nor changes the mode. -/
theorem claim_C8_witness :
    (((regGet ((customerWebhook true true { activeChats := [], agentChatMap := [] }
          (some { fromId := 3, text := some "hi", firstName := some "Pat" })
          "c8" 0).1.activeChats) "c8").map ChatState.mode = some Mode.bot)
      ∧ regKeys ((customerWebhook true true { activeChats := [], agentChatMap := [] }
          (some { fromId := 3, text := some "hi", firstName := some "Pat" })
          "c8" 0).1.activeChats)
          = regKeys ([] : List (String × ChatState)) ++ ["c8"])
    ∧ (((regGet ((socketUserMessage true true c8State
            "c8" "hello" none none none 1).1.activeChats) "c8").map
          ChatState.mode = some demoWebChat.mode)
        ∧ regKeys ((socketUserMessage true true c8State
            "c8" "hello" none none none 1).1.activeChats)
          = regKeys [("c8", demoWebChat)]) :=
  ⟨(claim_C8 true true { activeChats := [], agentChatMap := [] }
      { fromId := 3, text := some "hi", firstName := some "Pat" } "c8" "x" "y"
      none none none 0).1 rfl,
   ((claim_C8 true true c8State
      { fromId := 3, text := some "hi", firstName := some "Pat" } "z" "c8" "hello"
      none none none 1).2.2.2 demoWebChat rfl)⟩

theorem agentInvB_customerWebhook (o sb : Bool) (st : ServerState) (msg : Option TgMessage)
    (rcid : String) (now : Nat) (h : agentInvB st.activeChats = true) :
    agentInvB (customerWebhook o sb st msg rcid now).1.activeChats = true := by
  cases msg with
  | none => rw [customerWebhook_noMsg]; exact h
  | some m =>
      cases sb with
      | false => rw [customerWebhook_noSb]; exact h
      | true =>
          cases hreg : regGet st.activeChats rcid with
          | none =>
              rw [customerWebhook_fresh o st m rcid now hreg]
              exact agentInvB_handleBotReply _ _ _ _ _ _ _
                (agentInvB_storeMessage _ _ _ _
                  (agentInvB_regSet _ _ _ h (by simp [chatOk])))
          | some chat =>
              have hok := agentInvB_get _ _ _ h hreg
              by_cases hcond : chat.mode = Mode.human ∧ chat.agentId.isSome = true
              · rw [customerWebhook_forward o st m rcid now chat hreg hcond.1 hcond.2]
                exact agentInvB_storeMessage _ _ _ _
                  (agentInvB_regSet _ _ _ h (by simpa [chatOk] using hok))
              · rw [customerWebhook_existing_bot o st m rcid now chat hreg hcond]
                exact agentInvB_handleBotReply _ _ _ _ _ _ _
                  (agentInvB_storeMessage _ _ _ _
                    (agentInvB_regSet _ _ _ h (by simpa [chatOk] using hok)))

theorem agentInvB_socketUserMessage (o sb : Bool) (st : ServerState) (cid text : String)
    (ufn uln uid : Option String) (now : Nat) (h : agentInvB st.activeChats = true) :
    agentInvB (socketUserMessage o sb st cid text ufn uln uid now).1.activeChats = true := by
  cases hreg : regGet st.activeChats cid with
  | none =>
      rw [socketUserMessage_fresh o sb st cid text ufn uln uid now hreg]
      exact agentInvB_handleBotReply _ _ _ _ _ _ _
        (agentInvB_storeMessage _ _ _ _
          (agentInvB_regSet _ _ _ h (by simp [chatOk])))
  | some chat =>
      have hok := agentInvB_get _ _ _ h hreg
      cases hmode : chat.mode with
      | human =>
          rw [socketUserMessage_existing_human o sb st cid text ufn uln uid now chat hreg hmode]
          exact agentInvB_storeMessage _ _ _ _
            (agentInvB_regSet _ _ _ h (by simpa [chatOk] using hok))
      | bot =>
          rw [socketUserMessage_existing_bot o sb st cid text ufn uln uid now chat hreg hmode]
          exact agentInvB_handleBotReply _ _ _ _ _ _ _
            (agentInvB_storeMessage _ _ _ _
              (agentInvB_regSet _ _ _ h (by simpa [chatOk] using hok)))

theorem agentInvB_supportWebhook (o sb : Bool) (st : ServerState) (msg : Option TgMessage)
    (now : Nat) (h : agentInvB st.activeChats = true) :
    agentInvB (supportWebhook o sb st msg now).1.activeChats = true := by
  cases msg with
  | none => rw [supportWebhook_noMsg]; exact h
  | some m =>
      cases sb with
      | false => rw [supportWebhook_noSb]; exact h
      | true =>
          by_cases h1 : m.text.getD "" = "/start"
          · rw [supportWebhook_start o st m now h1]; exact h
          · by_cases h2 : m.text.getD "" = "/list"
            · rw [supportWebhook_list o st m now h2]; exact h
            · cases h3 : jsStartsWith (m.text.getD "") "/open" with
              | true =>
                  cases hget : (jsSplitSpace (m.text.getD ""))[1]? with
                  | none =>
                      have hjt : jsTruthy ((jsSplitSpace (m.text.getD ""))[1]?) = false := by
                        rw [hget]; rfl
                      rw [supportWebhook_open_usage o st m now h1 h2 h3 hjt]; exact h
                  | some cid2 =>
                      by_cases hcid : cid2 = ""
                      · have hjt : jsTruthy ((jsSplitSpace (m.text.getD ""))[1]?) = false := by
                          rw [hget]; simp [jsTruthy, hcid]
                        rw [supportWebhook_open_usage o st m now h1 h2 h3 hjt]; exact h
                      · cases hreg : regGet st.activeChats cid2 with
                        | none =>
                            rw [supportWebhook_open_missing o st m now cid2 h1 h2 h3 hget hcid hreg]
                            exact h
                        | some chat =>
                            rw [supportWebhook_open_found o st m now cid2 chat h1 h2 h3 hget hcid hreg]
                            exact agentInvB_storeMessage _ _ _ _
                              (agentInvB_regSet _ _ _ h (by simp [chatOk]))
              | false =>
                  by_cases h4 : m.text.getD "" = "/release"
                  · cases ham : amGet st.agentChatMap m.fromId with
                    | none => rw [supportWebhook_release_none o st m now h1 h2 h3 h4 ham]; exact h
                    | some cur =>
                        cases hreg2 : regGet st.activeChats cur with
                        | none =>
                            rw [supportWebhook_release_missing o st m now cur h1 h2 h3 h4 ham hreg2]
                            exact h
                        | some chat =>
                            rw [supportWebhook_release_found o st m now cur chat h1 h2 h3 h4 ham hreg2]
                            exact agentInvB_regSet _ _ _ h (by simp [chatOk])
                  · cases ham : amGet st.agentChatMap m.fromId with
                    | none => rw [supportWebhook_msg_hint o st m now h1 h2 h3 h4 ham]; exact h
                    | some cur =>
                        cases hreg2 : regGet st.activeChats cur with
                        | none =>
                            rw [supportWebhook_msg_notfound o st m now cur h1 h2 h3 h4 ham hreg2]
                            exact h
                        | some chat =>
                            rw [supportWebhook_msg_found o st m now cur chat h1 h2 h3 h4 ham hreg2]
                            exact agentInvB_storeMessage _ _ _ _ h

theorem agentInvB_postTakeover (sb : Bool) (st : ServerState)
    (chatIdB agentIdB agentNameB : Option String) (now : Nat)
    (h : agentInvB st.activeChats = true) :
    agentInvB (postTakeover sb st chatIdB agentIdB agentNameB now).1.activeChats = true := by
  unfold postTakeover
  by_cases hv : (!(jsTruthy chatIdB) || !(jsTruthy agentIdB)) = true
  · simp [hv, h]
  · simp only [Bool.not_eq_true] at hv
    cases hreg : regGet st.activeChats (chatIdB.getD "") with
    | none => simp [hv, hreg, h]
    | some chat =>
        by_cases hbm : chat.mode = Mode.bot ∧ jsTruthy agentNameB = true
        · rcases hsm : storeMessage sb
              (regSet st.activeChats (chatIdB.getD "")
                { chat with mode := Mode.human, agentId := some (agentIdB.getD ""),
                            agentName := agentNameB, requestingHuman := false })
              (chatIdB.getD "")
              { sender := Sender.system, text := (agentNameB.getD "") ++ " connected",
                timestamp := now } with ⟨r, e⟩
          simp [hv, hreg, hbm, hsm]
          have hinv := agentInvB_storeMessage sb
              (regSet st.activeChats (chatIdB.getD "")
                { chat with mode := Mode.human, agentId := some (agentIdB.getD ""),
                            agentName := agentNameB, requestingHuman := false })
              (chatIdB.getD "")
              { sender := Sender.system, text := (agentNameB.getD "") ++ " connected",
                timestamp := now }
              (agentInvB_regSet _ _ _ h (by simp [chatOk]))
          rw [hsm] at hinv
          exact hinv
        · simp [hv, hreg, hbm]
          exact agentInvB_regSet _ _ _ h (by simp [chatOk])

theorem agentInvB_postRelease (sb : Bool) (st : ServerState) (chatIdB : Option String)
    (h : agentInvB st.activeChats = true) :
    agentInvB (postRelease sb st chatIdB).1.activeChats = true := by
  unfold postRelease
  by_cases hv : (!(jsTruthy chatIdB)) = true
  · simp [hv, h]
  · simp only [Bool.not_eq_true] at hv
    cases hreg : regGet st.activeChats (chatIdB.getD "") with
    | none => simp [hv, hreg, h]
    | some chat =>
        simp [hv, hreg]
        exact agentInvB_regSet _ _ _ h (by simp [chatOk])

theorem agentInvB_postSend (o sb : Bool) (st : ServerState)
    (chatIdB messageB agentIdB agentNameB : Option String) (now : Nat)
    (h : agentInvB st.activeChats = true) :
    agentInvB (postSend o sb st chatIdB messageB agentIdB agentNameB now).1.activeChats
      = true := by
  unfold postSend
  by_cases hv : (!(jsTruthy chatIdB) || !(jsTruthy messageB)) = true
  · simp [hv, h]
  · simp only [Bool.not_eq_true] at hv
    rcases hsm : storeMessage sb st.activeChats (chatIdB.getD "")
        { sender := Sender.agent, text := messageB.getD "", timestamp := now,
          agentId := agentIdB, agentName := agentNameB } with ⟨r, e⟩
    simp [hv, hsm]
    have hinv := agentInvB_storeMessage sb st.activeChats (chatIdB.getD "")
        { sender := Sender.agent, text := messageB.getD "", timestamp := now,
          agentId := agentIdB, agentName := agentNameB } h
    rw [hsm] at hinv
    exact hinv

theorem agentInvB_socketSendMessage (o sb : Bool) (st : ServerState) (cid mtext : String)
    (agentIdB agentNameB : Option String) (now : Nat)
    (h : agentInvB st.activeChats = true) :
    agentInvB (socketSendMessage o sb st cid mtext agentIdB agentNameB now).1.activeChats
      = true := by
  unfold socketSendMessage
  rcases hsm : storeMessage sb st.activeChats cid
      { sender := Sender.agent, text := mtext, timestamp := now,
        agentId := agentIdB, agentName := agentNameB } with ⟨r, e⟩
  simp [hsm]
  have hinv := agentInvB_storeMessage sb st.activeChats cid
      { sender := Sender.agent, text := mtext, timestamp := now,
        agentId := agentIdB, agentName := agentNameB } h
  rw [hsm] at hinv
  exact hinv

theorem agentInvB_socketRelease (st : ServerState) (cid : String)
    (h : agentInvB st.activeChats = true) :
    agentInvB (socketRelease st cid).1.activeChats = true := by
  unfold socketRelease
  cases hreg : regGet st.activeChats cid with
  | none => simpa using h
  | some chat =>
      simp only [hreg]
      exact agentInvB_regSet _ _ _ h (by simp [chatOk])

theorem agentInvB_socketTakeover (sb : Bool) (st : ServerState) (cid : String)
    (agentIdB agentNameB : Option String) (now : Nat)
    (haid : agentIdB.isSome = true) (h : agentInvB st.activeChats = true) :
    agentInvB (socketTakeover sb st cid agentIdB agentNameB now).1.activeChats = true := by
  unfold socketTakeover
  cases hreg : regGet st.activeChats cid with
  | none => simpa using h
  | some chat =>
      by_cases hbm : chat.mode = Mode.bot ∧ jsTruthy agentNameB = true
      · rcases hsm : storeMessage sb
            (regSet st.activeChats cid
              { chat with mode := Mode.human, agentId := agentIdB,
                          agentName := agentNameB, requestingHuman := false }) cid
            { sender := Sender.system, text := (agentNameB.getD "") ++ " connected",
              timestamp := now } with ⟨r, e⟩
        simp [hreg, hbm, hsm]
        have hinv := agentInvB_storeMessage sb
            (regSet st.activeChats cid
              { chat with mode := Mode.human, agentId := agentIdB,
                          agentName := agentNameB, requestingHuman := false }) cid
            { sender := Sender.system, text := (agentNameB.getD "") ++ " connected",
              timestamp := now }
            (agentInvB_regSet _ _ _ h (by simp [chatOk, haid]))
        rw [hsm] at hinv
        exact hinv
      · simp [hreg, hbm]
        exact agentInvB_regSet _ _ _ h (by simp [chatOk, haid])

/-- Claim C1 counterexample: the socket takeover handler does not validate
its payload; a takeover without an agentId switches the session to human
mode with no assigned agent, violating the stated iff on that session. -/
theorem claim_C1_counterexample :
    agentInvB [("c1", demoWebChat)] = true
    ∧ ((regGet (socketTakeover true
          { activeChats := [("c1", demoWebChat)], agentChatMap := [] }
          "c1" none none 0).1.activeChats "c1").map (fun c => (c.mode, c.agentId))
        = some (Mode.human, (none : Option String))) := by
  refine ⟨by decide, by decide⟩

/-- Claim C1 amended: the invariant that a session records an agent id
exactly when its mode is human is preserved by session creation and by
every operation — the customer and support webhooks, the socket
user_message handler, POST /takeover, /release and /send, socket
send_message and release — and by a socket takeover whose payload carries
an agentId.  The socket takeover handler does not validate the payload,
and a takeover without an agentId breaks the invariant (see the
counterexample), which the HTTP endpoint rules out with its 400 check. -/
theorem claim_C1 :
    ∀ (o sb : Bool) (st : ServerState) (msg : Option TgMessage) (rcid cid text mtext : String)
      (ufn uln uid chatIdB agentIdB agentNameB messageB : Option String) (now : Nat),
      agentInvB st.activeChats = true →
      agentInvB (customerWebhook o sb st msg rcid now).1.activeChats = true
      ∧ agentInvB (supportWebhook o sb st msg now).1.activeChats = true
      ∧ agentInvB (socketUserMessage o sb st cid text ufn uln uid now).1.activeChats = true
      ∧ agentInvB (postTakeover sb st chatIdB agentIdB agentNameB now).1.activeChats = true
      ∧ agentInvB (postRelease sb st chatIdB).1.activeChats = true
      ∧ agentInvB (postSend o sb st chatIdB messageB agentIdB agentNameB now).1.activeChats = true
      ∧ agentInvB (socketSendMessage o sb st cid mtext agentIdB agentNameB now).1.activeChats = true
      ∧ agentInvB (socketRelease st cid).1.activeChats = true
      ∧ (agentIdB.isSome = true →
          agentInvB (socketTakeover sb st cid agentIdB agentNameB now).1.activeChats = true) :=
  fun o sb st msg rcid cid text mtext ufn uln uid chatIdB agentIdB agentNameB messageB now h =>
    ⟨agentInvB_customerWebhook o sb st msg rcid now h,
     agentInvB_supportWebhook o sb st msg now h,
     agentInvB_socketUserMessage o sb st cid text ufn uln uid now h,
     agentInvB_postTakeover sb st chatIdB agentIdB agentNameB now h,
     agentInvB_postRelease sb st chatIdB h,
     agentInvB_postSend o sb st chatIdB messageB agentIdB agentNameB now h,
     agentInvB_socketSendMessage o sb st cid mtext agentIdB agentNameB now h,
     agentInvB_socketRelease st cid h,
     fun haid => agentInvB_socketTakeover sb st cid agentIdB agentNameB now haid h⟩

/-- Claim C1 witness: the invariant holds after a concrete takeover and a
concrete validated socket takeover on a bot-mode session. -/
theorem claim_C1_witness :
    agentInvB ((postTakeover true c2State (some "c2") (some "a9")
        (some "Ann") 3).1.activeChats) = true
    ∧ agentInvB ((socketTakeover true c2State "c2" (some "a9")
        (some "Ann") 3).1.activeChats) = true :=
  ⟨(claim_C1 true true c2State none "x" "c2" "t" "mm" none none none (some "c2")
      (some "a9") (some "Ann") (some "mm") 3 (by decide)).2.2.2.1,
   (claim_C1 true true c2State none "x" "c2" "t" "mm" none none none (some "c2")
      (some "a9") (some "Ann") (some "mm") 3 (by decide)).2.2.2.2.2.2.2.2 rfl⟩

/-- Claim C2: for an inbound user message, a bot-mode session never causes
a delivery to the support bot (the agent channel), and a human-mode
session never invokes the auto-responder: the only message appended for
it is the user message itself (no bot reply, no escalation acknowledgment,
no fallback) and neither the bot_message nor the human_support_requested
event is emitted.  Shown for the customer webhook and the socket
user_message handler. -/
theorem claim_C2 :
    ∀ (o sb : Bool) (st : ServerState) (m : TgMessage) (rcid cid text : String)
      (ufn uln uid : Option String) (now : Nat),
      (∀ chat, regGet st.activeChats rcid = some chat → chat.mode = Mode.bot →
         (customerWebhook o sb st (some m) rcid now).2.1.all
           (fun e => !(isSupportSend e)) = true)
      ∧ (regGet st.activeChats rcid = none →
          (customerWebhook o sb st (some m) rcid now).2.1.all
            (fun e => !(isSupportSend e)) = true)
      ∧ (∀ chat, regGet st.activeChats rcid = some chat → chat.mode = Mode.human →
          sb = true →
          ((regGet (customerWebhook o sb st (some m) rcid now).1.activeChats rcid).map
              ChatState.messages
            = some (chat.messages
                ++ [{ sender := Sender.user, text := m.text.getD "", timestamp := now }]))
          ∧ (customerWebhook o sb st (some m) rcid now).2.1.all
              (fun e => !(e == Effect.emit "bot_message" rcid)
                 && !(e == Effect.emit "human_support_requested" rcid)) = true)
      ∧ (∀ chat, regGet st.activeChats cid = some chat → chat.mode = Mode.bot →
          (socketUserMessage o sb st cid text ufn uln uid now).2.all
            (fun e => !(isSupportSend e)) = true)
      ∧ (∀ chat, regGet st.activeChats cid = some chat → chat.mode = Mode.human →
          ((regGet (socketUserMessage o sb st cid text ufn uln uid now).1.activeChats cid).map
              ChatState.messages
            = some (chat.messages
                ++ [{ sender := Sender.user, text := text, timestamp := now }]))
          ∧ (socketUserMessage o sb st cid text ufn uln uid now).2.all
              (fun e => !(e == Effect.emit "bot_message" cid)
                 && !(e == Effect.emit "human_support_requested" cid)) = true) := by
  intro o sb st m rcid cid text ufn uln uid now
  refine ⟨?_, ?_, ?_, ?_, ?_⟩
  · intro chat hreg hm
    cases sb with
    | false => rw [customerWebhook_noSb]; rfl
    | true =>
        have hcond : ¬(chat.mode = Mode.human ∧ chat.agentId.isSome = true) := by
          simp [hm]
        rw [customerWebhook_existing_bot o st m rcid now chat hreg hcond]
        rw [List.all_eq_true]
        intro e he
        simp only [List.mem_append, List.mem_singleton] at he
        rcases he with (he | he) | he
        · rw [storeMessage_snd_sub _ _ _ _ _ he]; rfl
        · subst he; rfl
        · simp [handleBotReply_no_support _ _ _ _ _ _ _ _ he]
  · intro hreg
    cases sb with
    | false => rw [customerWebhook_noSb]; rfl
    | true =>
        rw [customerWebhook_fresh o st m rcid now hreg]
        rw [List.all_eq_true]
        intro e he
        simp only [List.mem_append, List.mem_singleton] at he
        rcases he with (he | he) | he
        · rw [storeMessage_snd_sub _ _ _ _ _ he]; rfl
        · subst he; rfl
        · simp [handleBotReply_no_support _ _ _ _ _ _ _ _ he]
  · intro chat hreg hm hsb
    subst hsb
    have hg1 : regGet (regSet st.activeChats rcid
        { chat with userFirstName := some (m.firstName.getD ""),
                    userLastName := some (m.lastName.getD ""),
                    telegramUserId := some m.fromId }) rcid
        = some { chat with userFirstName := some (m.firstName.getD ""),
                           userLastName := some (m.lastName.getD ""),
                           telegramUserId := some m.fromId } := by
      rw [regGet_regSet]; simp
    by_cases hcond : chat.agentId.isSome = true
    · rw [customerWebhook_forward o st m rcid now chat hreg hm hcond]
      constructor
      · rw [regGet_storeMessage_self _ _ _ _ _ hg1]
        simp
      · rw [List.all_eq_true]
        intro e he
        simp only [List.mem_append, List.mem_singleton] at he
        rcases he with (he | he) | he
        · rw [storeMessage_snd_sub _ _ _ _ _ he]; rfl
        · subst he; simp
        · rcases hpn : parseIntNat (chat.agentId.getD "") with _ | a <;> rw [hpn] at he
          · simp at he
          · rcases tgSend_mem _ _ _ _ _ he with h | h <;> subst h <;> rfl
    · have hcond2 : ¬(chat.mode = Mode.human ∧ chat.agentId.isSome = true) := by
        simp [hcond]
      rw [customerWebhook_existing_bot o st m rcid now chat hreg hcond2]
      have hbr0 : handleBotReply o true
          (storeMessage true (regSet st.activeChats rcid
            { chat with userFirstName := some (m.firstName.getD ""),
                        userLastName := some (m.lastName.getD ""),
                        telegramUserId := some m.fromId }) rcid
            { sender := Sender.user, text := m.text.getD "", timestamp := now }).1
          rcid (m.text.getD "") Source.telegram now
          = ((storeMessage true (regSet st.activeChats rcid
              { chat with userFirstName := some (m.firstName.getD ""),
                          userLastName := some (m.lastName.getD ""),
                          telegramUserId := some m.fromId }) rcid
              { sender := Sender.user, text := m.text.getD "", timestamp := now }).1, []) := by
        rw [handleBotReply_eq, regGet_storeMessage_self _ _ _ _ _ hg1]
        simp [hm]
      rw [hbr0]
      constructor
      · rw [regGet_storeMessage_self _ _ _ _ _ hg1]
        simp
      · rw [List.all_eq_true]
        intro e he
        simp only [List.mem_append, List.mem_singleton, List.not_mem_nil, or_false] at he
        rcases he with he | he
        · rw [storeMessage_snd_sub _ _ _ _ _ he]; rfl
        · subst he; simp
  · intro chat hreg hm
    rw [socketUserMessage_existing_bot o sb st cid text ufn uln uid now chat hreg hm]
    rw [List.all_eq_true]
    intro e he
    simp only [List.mem_append, List.mem_singleton] at he
    rcases he with (he | he) | he
    · rw [storeMessage_snd_sub _ _ _ _ _ he]; rfl
    · subst he; rfl
    · simp [handleBotReply_no_support _ _ _ _ _ _ _ _ he]
  · intro chat hreg hm
    rw [socketUserMessage_existing_human o sb st cid text ufn uln uid now chat hreg hm]
    have hg1 : regGet (regSet st.activeChats cid
        { chat with
            userFirstName := if jsTruthy ufn then ufn else chat.userFirstName,
            userLastName := if jsTruthy uln then uln else chat.userLastName,
            userId := if jsTruthy uid then uid else chat.userId }) cid
        = some { chat with
            userFirstName := if jsTruthy ufn then ufn else chat.userFirstName,
            userLastName := if jsTruthy uln then uln else chat.userLastName,
            userId := if jsTruthy uid then uid else chat.userId } := by
      rw [regGet_regSet]; simp
    constructor
    · rw [regGet_storeMessage_self _ _ _ _ _ hg1]
      simp
    · rw [List.all_eq_true]
      intro e he
      simp only [List.mem_append, List.mem_singleton] at he
      rcases he with he | he
      · rw [storeMessage_snd_sub _ _ _ _ _ he]; rfl
      · subst he; simp

/-- Claim C2 witness: a concrete bot-mode run produces no support-bot
delivery, and a concrete human-mode run appends only the user message and
emits no bot_message or human_support_requested event. -/
theorem claim_C2_witness :
    ((customerWebhook true true c2State
        (some { fromId := 4, text := some "hello", firstName := some "Kim" }) "c2" 6).2.1.all
       (fun e => !(isSupportSend e)) = true)
    ∧ (((regGet ((customerWebhook true true c2hState
          (some { fromId := 4, text := some "help me", firstName := some "Kim" })
          "c2h" 6).1.activeChats) "c2h").map ChatState.messages
        = some (demoHumanTgChat.messages
            ++ [{ sender := Sender.user, text := "help me", timestamp := 6 }]))
    ∧ ((customerWebhook true true c2hState
        (some { fromId := 4, text := some "help me", firstName := some "Kim" })
        "c2h" 6).2.1.all
         (fun e => !(e == Effect.emit "bot_message" "c2h")
            && !(e == Effect.emit "human_support_requested" "c2h")) = true)) :=
  ⟨(claim_C2 true true c2State
      { fromId := 4, text := some "hello", firstName := some "Kim" } "c2" "x" "y"
      none none none 6).1 demoWebChat rfl rfl,
   ((claim_C2 true true c2hState
      { fromId := 4, text := some "help me", firstName := some "Kim" } "c2h" "x" "y"
      none none none 6).2.2.1 demoHumanTgChat rfl rfl rfl)⟩

/-- Claim C9: both webhook handlers are registered on POST /webhook, the
customer-bot handler first; express dispatch runs matching handlers in
registration order and no handler of this server calls next, so every
POST /webhook request is processed by the customer-bot handler alone and
the support-bot handler never processes any request. -/
theorem claim_C9 :
    executedHandlers Method.post "/webhook" = [HandlerId.customerBotWebhook]
    ∧ ∀ (m : Method) (p : String),
        (executedHandlers m p).all
          (fun h => !(h == HandlerId.supportBotWebhook)) = true := by
  constructor
  · decide
  · intro m p
    rw [List.all_eq_true]
    intro h hmem
    by_cases hsupp : h = HandlerId.supportBotWebhook
    · exfalso
      subst hsupp
      have h1 := dispatchGo_sub _ _ hmem
      rw [List.mem_map] at h1
      obtain ⟨r, hr, hh⟩ := h1
      have hr2 : r ∈ routeTable := List.mem_of_mem_filter hr
      have hpred := List.of_mem_filter hr
      simp only [decide_eq_true_eq] at hpred
      obtain ⟨hm2, hp2⟩ := hpred
      simp only [routeTable, List.mem_cons, List.not_mem_nil, or_false] at hr2
      rcases hr2 with h2 | h2 | h2 | h2 | h2 | h2 | h2 | h2 | h2 <;> subst h2
      all_goals try exact absurd hh (by decide)
      simp only at hm2 hp2
      subst hm2
      subst hp2
      revert hmem
      decide
    · simp [hsupp]

/-- Claim C10: a POST /send request (and a socket send_message event) for
a chat id that is not in the registry responds with ok true, stores
nothing, writes nothing to the database, and creates no session; only the
dashboard broadcast is emitted. -/
theorem claim_C10 :
    ∀ (o sb : Bool) (st : ServerState) (cid m : String) (aid aname : Option String)
      (now : Nat),
      cid ≠ "" → m ≠ "" → regGet st.activeChats cid = none →
      postSend o sb st (some cid) (some m) aid aname now
        = (st, [Effect.emit "message_from_agent" cid], Resp.jsonOk)
      ∧ socketSendMessage o sb st cid m aid aname now
        = (st, [Effect.emit "message_from_agent" cid]) := by
  intro o sb st cid m aid aname now hcid hm hreg
  constructor
  · unfold postSend
    simp [jsTruthy, hcid, hm, hreg, storeMessage]
  · unfold socketSendMessage
    simp [hreg, storeMessage]

/-- Claim C10 witness: concrete unknown chat id. -/
theorem claim_C10_witness :
    postSend true true { activeChats := [], agentChatMap := [] }
        (some "cX") (some "hi") none none 9
      = ({ activeChats := [], agentChatMap := [] },
         [Effect.emit "message_from_agent" "cX"], Resp.jsonOk)
    ∧ socketSendMessage true true { activeChats := [], agentChatMap := [] }
        "cX" "hi" none none 9
      = ({ activeChats := [], agentChatMap := [] },
         [Effect.emit "message_from_agent" "cX"]) :=
  claim_C10 true true { activeChats := [], agentChatMap := [] } "cX" "hi" none none 9
    (by decide) (by decide) rfl

end Gerko
